import Mathlib

/-!
SceneManager.cpp: texture registry, material list and uniform pushes.

A shallow embedding of the bookkeeping half of `SceneManager.cpp`: the fixed
array `m_textureIDs[16]` with its fill counter `m_loadedTextures`, the list
`m_objectMaterials`, and the calls that read or write them.

Conventions.
* `int` values are `Int`; `GLuint` values are `Nat` kept below `2 ^ 32`.
* A `float` is carried as its IEEE-754 binary32 bit pattern: the embedded code
  stores and copies floats and flips the sign bit for a unary minus.  Everything
  else computed with floats is the library's and enters as a parameter: glm's
  matrix functions (`GLM`) and the sums, products, sine and clock value that
  `RenderScene` uses (`RenderOps`).
* The array `m_textureIDs` is a list of exactly 16 entries.  An access outside
  indices 0 to 15 is undefined behaviour in C++; the embedding returns `none`
  there.
* The collaborators (image decoder, OpenGL, `ShaderManager`, `ShapeMeshes`) are
  black boxes in the source tree.  Their answers are parameters (`Externals`);
  their state is the part of it the calls of this file can change
  (`GLState`, the trace of uniform writes, the trace of mesh loads).
-/

/-! ## Plain data -/

/-- A `float`, as the bit pattern of the binary32 value. -/
abbrev float := Nat

/-- The `glm::vec2` of two floats. -/
structure vec2 where
  x : float
  y : float
deriving DecidableEq, Repr

/-- The `glm::vec3` of three floats. -/
structure vec3 where
  x : float
  y : float
  z : float
deriving DecidableEq, Repr

/-- The `glm::vec4` of four floats. -/
structure vec4 where
  x : float
  y : float
  z : float
  w : float
deriving DecidableEq, Repr

/-- The `glm::mat4`, as its four columns. -/
structure mat4 where
  c0 : vec4
  c1 : vec4
  c2 : vec4
  c3 : vec4
deriving DecidableEq, Repr

/-- The literal `0.0f`. -/
def f32_0_0 : float := 0x00000000

/-- The literal `0.8f`. -/
def f32_0_8 : float := 0x3F4CCCCD

/-- The literal `1.0f`. -/
def f32_1_0 : float := 0x3F800000

/-- The literal `64.0f`. -/
def f32_64_0 : float := 0x42800000

/-- The literal `0.010f`. -/
def f32_0_01 : float := 0x3C23D70A

/-- The literal `0.025f`. -/
def f32_0_025 : float := 0x3CCCCCCD

/-- The literal `0.05f`. -/
def f32_0_05 : float := 0x3D4CCCCD

/-- The literal `0.07f`. -/
def f32_0_07 : float := 0x3D8F5C29

/-- The literal `0.08f`. -/
def f32_0_08 : float := 0x3DA3D70A

/-- The literal `0.1f`. -/
def f32_0_1 : float := 0x3DCCCCCD

/-- The literal `0.12f`. -/
def f32_0_12 : float := 0x3DF5C28F

/-- The literal `0.15f`. -/
def f32_0_15 : float := 0x3E19999A

/-- The literal `0.175f`. -/
def f32_0_175 : float := 0x3E333333

/-- The literal `0.2f`. -/
def f32_0_2 : float := 0x3E4CCCCD

/-- The literal `0.25f`. -/
def f32_0_25 : float := 0x3E800000

/-- The literal `0.28f`. -/
def f32_0_28 : float := 0x3E8F5C29

/-- The literal `0.3f`. -/
def f32_0_3 : float := 0x3E99999A

/-- The literal `0.35f`. -/
def f32_0_35 : float := 0x3EB33333

/-- The literal `0.37f`. -/
def f32_0_37 : float := 0x3EBD70A4

/-- The literal `0.45f`. -/
def f32_0_45 : float := 0x3EE66666

/-- The literal `0.5f`. -/
def f32_0_5 : float := 0x3F000000

/-- The literal `0.55f`. -/
def f32_0_55 : float := 0x3F0CCCCD

/-- The literal `0.6f` (also written `0.60f`). -/
def f32_0_6 : float := 0x3F19999A

/-- The literal `0.7f`. -/
def f32_0_7 : float := 0x3F333333

/-- The literal `0.9f` (also written `0.90f`). -/
def f32_0_9 : float := 0x3F666666

/-- The literal `1.2f`. -/
def f32_1_2 : float := 0x3F99999A

/-- The literal `1.5f`. -/
def f32_1_5 : float := 0x3FC00000

/-- The literal `1.6f`. -/
def f32_1_6 : float := 0x3FCCCCCD

/-- The literal `2.0f`. -/
def f32_2_0 : float := 0x40000000

/-- The literal `3.0f`. -/
def f32_3_0 : float := 0x40400000

/-- The literal `3.4f`. -/
def f32_3_4 : float := 0x4059999A

/-- The literal `3.5f`. -/
def f32_3_5 : float := 0x40600000

/-- The literal `4.0f`. -/
def f32_4_0 : float := 0x40800000

/-- The literal `5.0f`. -/
def f32_5_0 : float := 0x40A00000

/-- The literal `8.0f`. -/
def f32_8_0 : float := 0x41000000

/-- The literal `10.0f`. -/
def f32_10_0 : float := 0x41200000

/-- The literal `30.0f`. -/
def f32_30_0 : float := 0x41F00000

/-- The literal `45.0f`. -/
def f32_45_0 : float := 0x42340000

/-- The literal `80.0f`. -/
def f32_80_0 : float := 0x42A00000

/-- The unary minus of C++ on a `float`, as in `-1.5f`: the sign bit flips. -/
def fneg (x : float) : float := if x < 2 ^ 31 then x + 2 ^ 31 else x - 2 ^ 31

/-- The constructor `glm::mat4(d)`: `d` on the diagonal, `0.0f` elsewhere. -/
def mat4.diag (d : float) : mat4 :=
  ⟨⟨d, f32_0_0, f32_0_0, f32_0_0⟩, ⟨f32_0_0, d, f32_0_0, f32_0_0⟩,
    ⟨f32_0_0, f32_0_0, d, f32_0_0⟩, ⟨f32_0_0, f32_0_0, f32_0_0, d⟩⟩

/-- The one-argument constructor `glm::vec3(s)`: all three components are `s`. -/
def vec3.splat (s : float) : vec3 := ⟨s, s, s⟩

/-- Conversion of a `GLuint` to `int` (the implicit conversion in
`return m_textureIDs[i].ID;`): the value modulo `2 ^ 32`, read as two's complement. -/
def GLuint_to_int (u : Nat) : Int :=
  if u % 2 ^ 32 < 2 ^ 31 then ((u % 2 ^ 32 : Nat) : Int) else ((u % 2 ^ 32 : Nat) : Int) - 2 ^ 32

/-- Modelled from the spec: the element type of `m_textureIDs`, declared in the
absent `SceneManager.h`.  "Texture entry: {tag: string, handle: opaque GPU id}";
the source names the two fields `ID` and `tag`. -/
structure TEXTURE_INFO where
  ID : Nat
  tag : String
deriving DecidableEq, Repr

/-- Modelled from the spec: the element type of `m_objectMaterials`, declared in the
absent `SceneManager.h`.  "Material entry: {tag: string, diffuse color, specular
color, shininess}"; the source names the fields as below. -/
structure OBJECT_MATERIAL where
  tag : String
  diffuseColor : vec3
  specularColor : vec3
  shininess : float
deriving DecidableEq, Repr

/-! ## Collaborators -/

/-- What `stbi_load` hands back on success: the three out-parameters (the pixel
buffer itself is only forwarded to `glTexImage2D`). -/
structure Image where
  width : Int
  height : Int
  channels : Int
deriving DecidableEq, Repr

/-- The two pixel formats `CreateGLTexture` chooses between. -/
inductive GLenum_format where
  | GL_RGB
  | GL_RGBA
deriving DecidableEq, Repr

/-- A texture object with storage, as left by the `glTexParameteri` /
`glTexImage2D` / `glGenerateMipmap` block.  The four sampling parameters are the
same constants for every texture and are not recorded. -/
structure GLTexture where
  name : Nat
  format : GLenum_format
  width : Int
  height : Int
deriving DecidableEq, Repr

/-- The texture part of the OpenGL context: the active unit (as the offset from
`GL_TEXTURE0`), the `GL_TEXTURE_2D` binding of every unit, and the live texture
objects. -/
structure GLState where
  activeTexture : Nat
  boundTexture2D : Nat → Nat
  textures : List GLTexture

/-- The call `glActiveTexture(GL_TEXTURE0 + unit)`.  The context is taken to have
a unit for every offset asked for (the calls of this file ask for 0 to 15), so
the call is never rejected. -/
def glActiveTexture (gl : GLState) (unit : Nat) : GLState :=
  { gl with activeTexture := unit }

/-- The call `glBindTexture(GL_TEXTURE_2D, name)`: rebinds the active unit.  The
name is taken to be one OpenGL accepts, as the names `glGenTextures` hands out
are. -/
def glBindTexture (gl : GLState) (name : Nat) : GLState :=
  { gl with boundTexture2D := fun u => if u = gl.activeTexture then name else gl.boundTexture2D u }

/-- The block `glTexParameteri` x4, `glTexImage2D`, `glGenerateMipmap`: gives
storage to the texture bound to the active unit. -/
def glTexImage2D (gl : GLState) (format : GLenum_format) (width height : Int) : GLState :=
  { gl with textures := gl.textures ++ [⟨gl.boundTexture2D gl.activeTexture, format, width, height⟩] }

/-- The call `glDeleteTextures(1, &name)`: the object goes away and every unit
that had it bound falls back to texture 0. -/
def glDeleteTextures (gl : GLState) (name : Nat) : GLState :=
  { gl with
    boundTexture2D := fun u => if gl.boundTexture2D u = name then 0 else gl.boundTexture2D u
    textures := gl.textures.filter (fun t => t.name ≠ name) }

/-- One value handed to a `ShaderManager` setter. -/
inductive UniformValue where
  | int (v : Int)
  | sampler2D (v : Int)
  | float (v : float)
  | vec2 (v : vec2)
  | vec3 (v : vec3)
  | vec4 (v : vec4)
  | mat4 (v : mat4)
deriving DecidableEq, Repr

/-- The shader manager, seen from this file: the setter calls it has received,
oldest first, each as (uniform name, value). -/
structure ShaderManager where
  uniforms : List (String × UniformValue)
deriving DecidableEq, Repr

/-- The call `setIntValue(name, v)`. -/
def ShaderManager.setIntValue (sh : ShaderManager) (name : String) (v : Int) : ShaderManager :=
  ⟨sh.uniforms ++ [(name, UniformValue.int v)]⟩

/-- The call `setSampler2DValue(name, v)`. -/
def ShaderManager.setSampler2DValue (sh : ShaderManager) (name : String) (v : Int) :
    ShaderManager :=
  ⟨sh.uniforms ++ [(name, UniformValue.sampler2D v)]⟩

/-- The call `setFloatValue(name, v)`. -/
def ShaderManager.setFloatValue (sh : ShaderManager) (name : String) (v : float) :
    ShaderManager :=
  ⟨sh.uniforms ++ [(name, UniformValue.float v)]⟩

/-- The call `setVec2Value(name, v)`. -/
def ShaderManager.setVec2Value (sh : ShaderManager) (name : String) (v : vec2) : ShaderManager :=
  ⟨sh.uniforms ++ [(name, UniformValue.vec2 v)]⟩

/-- The call `setVec3Value(name, v)`. -/
def ShaderManager.setVec3Value (sh : ShaderManager) (name : String) (v : vec3) : ShaderManager :=
  ⟨sh.uniforms ++ [(name, UniformValue.vec3 v)]⟩

/-- The call `setVec4Value(name, v)`. -/
def ShaderManager.setVec4Value (sh : ShaderManager) (name : String) (v : vec4) : ShaderManager :=
  ⟨sh.uniforms ++ [(name, UniformValue.vec4 v)]⟩

/-- The call `setMat4Value(name, v)`. -/
def ShaderManager.setMat4Value (sh : ShaderManager) (name : String) (v : mat4) : ShaderManager :=
  ⟨sh.uniforms ++ [(name, UniformValue.mat4 v)]⟩

/-- The part of glm that `SetTransformations` calls.  The library computes in
binary32 and is not in the source tree, so its functions are parameters. -/
structure GLM where
  radians : float → float
  translate : vec3 → mat4
  rotate : float → vec3 → mat4
  scale : vec3 → mat4
  mul : mat4 → mat4 → mat4

/-- The primitive meshes of `ShapeMeshes`. -/
inductive Mesh where
  | Plane
  | Cylinder
  | Box
  | Cone
  | Sphere
  | Torus
deriving DecidableEq, Repr

/-- The answers of the outside world that `CreateGLTexture` consumes: the decoder
(`none` is the null pointer of a failed `stbi_load`; the `Bool` is the
flip-vertically flag in force) and the name `glGenTextures` writes. -/
structure Externals where
  stbi_load : String → Bool → Option Image
  glGenTextures : GLState → Nat

/-! ## The class -/

/-- The constant `g_ModelName` of the source. -/
def g_ModelName : String := "model"

/-- The constant `g_ColorValueName` of the source. -/
def g_ColorValueName : String := "objectColor"

/-- The constant `g_TextureValueName` of the source. -/
def g_TextureValueName : String := "objectTexture"

/-- The constant `g_UseTextureName` of the source. -/
def g_UseTextureName : String := "bUseTexture"

/-- The constant `g_MaterialDiffuseName` of the source. -/
def g_MaterialDiffuseName : String := "material.diffuseColor"

/-- The constant `g_MaterialSpecularName` of the source. -/
def g_MaterialSpecularName : String := "material.specularColor"

/-- The constant `g_MaterialShininessName` of the source. -/
def g_MaterialShininessName : String := "material.shininess"

/-- Modelled from the spec: the data members of the class, declared in the absent
`SceneManager.h`.  "a fixed-size texture slot table" of "capacity 16" (the
constructor walks indices 0 to 15) and "a list of named materials"; the member
names are the ones the source uses.  `m_pShaderManager` is `none` for a null
pointer and otherwise holds the pointee. `m_basicMeshes` holds the meshes loaded
so far. -/
structure SceneManager where
  m_pShaderManager : Option ShaderManager
  m_basicMeshes : List Mesh
  m_loadedTextures : Int
  m_textureIDs : { l : List TEXTURE_INFO // l.length = 16 }
  m_objectMaterials : List OBJECT_MATERIAL
deriving DecidableEq, Repr

/-- Everything a member function can touch: the object, the texture state of the
OpenGL context, the decoder's global flip flag and the lines written to
`std::cout`. -/
structure World where
  scene : SceneManager
  gl : GLState
  stbi_flip_vertically_on_load : Bool
  cout : List String

/-- The constructor `SceneManager::SceneManager`: stores the pointer, no texture
loaded, every `ID` zero (the tags are default-constructed, empty, strings). -/
def SceneManager.ctor (pShaderManager : Option ShaderManager) : SceneManager :=
  { m_pShaderManager := pShaderManager
    m_basicMeshes := []
    m_loadedTextures := 0
    m_textureIDs := ⟨List.replicate 16 ⟨0, ""⟩, List.length_replicate 16 _⟩
    m_objectMaterials := [] }

/-- The loop of `FindTextureSlot` from index `i` with `n` iterations left. -/
def SceneManager.FindTextureSlot.loop (table : List TEXTURE_INFO) (tag : String) :
    Nat → Nat → Option Int
  | 0, _ => some (-1)
  | n + 1, i =>
    match table[i]? with
    | none => none
    | some e => if e.tag = tag then some (i : Int) else loop table tag n (i + 1)

/-- The function `int FindTextureSlot(std::string tag)`: `i` runs from 0 while
`i < m_loadedTextures`, which is `m_loadedTextures.toNat` iterations. -/
def SceneManager.FindTextureSlot (s : SceneManager) (tag : String) : Option Int :=
  SceneManager.FindTextureSlot.loop s.m_textureIDs.val tag s.m_loadedTextures.toNat 0

/-- The loop of `FindTextureID` from index `i` with `n` iterations left. -/
def SceneManager.FindTextureID.loop (table : List TEXTURE_INFO) (tag : String) :
    Nat → Nat → Option Int
  | 0, _ => some (-1)
  | n + 1, i =>
    match table[i]? with
    | none => none
    | some e => if e.tag = tag then some (GLuint_to_int e.ID) else loop table tag n (i + 1)

/-- The function `int FindTextureID(std::string tag)`. -/
def SceneManager.FindTextureID (s : SceneManager) (tag : String) : Option Int :=
  SceneManager.FindTextureID.loop s.m_textureIDs.val tag s.m_loadedTextures.toNat 0

/-- The range-for of `FindMaterial` over the rest of the list: the returned flag
and the value of the out-parameter on return. -/
def SceneManager.FindMaterial.loop (tag : String) (material : OBJECT_MATERIAL) :
    List OBJECT_MATERIAL → Bool × OBJECT_MATERIAL
  | [] => (false, material)
  | m :: rest => if m.tag = tag then (true, m) else loop tag material rest

/-- What a call of `FindMaterial` leaves behind: the `bool` it returns, the
out-parameter, and the object. -/
structure FindMaterialResult where
  ret : Bool
  material : OBJECT_MATERIAL
  self : SceneManager
deriving DecidableEq, Repr

/-- The function `bool FindMaterial(std::string tag, OBJECT_MATERIAL& material)`;
the argument `material` is the value the out-parameter holds on entry. -/
def SceneManager.FindMaterial (s : SceneManager) (tag : String) (material : OBJECT_MATERIAL) :
    FindMaterialResult :=
  let r := SceneManager.FindMaterial.loop tag material s.m_objectMaterials
  { ret := r.1, material := r.2, self := s }

/-- The function `bool CreateGLTexture(const char* filename, std::string tag)`.
Returns the `bool` and the world after the call; `none` when the write
`m_textureIDs[m_loadedTextures]` falls outside the array. -/
def SceneManager.CreateGLTexture (ext : Externals) (w : World) (filename tag : String) :
    Option (Bool × World) :=
  let w := { w with stbi_flip_vertically_on_load := true }
  match ext.stbi_load filename w.stbi_flip_vertically_on_load with
  | none => some (false, { w with cout := w.cout ++ ["Failed to load texture: " ++ filename] })
  | some data =>
    let textureID := ext.glGenTextures w.gl % 2 ^ 32
    let gl := glBindTexture w.gl textureID
    let format := if data.channels = 4 then GLenum_format.GL_RGBA else GLenum_format.GL_RGB
    let gl := glTexImage2D gl format data.width data.height
    let gl := glBindTexture gl 0
    let i : Int := w.scene.m_loadedTextures
    if 0 ≤ i ∧ i < 16 then
      some (true,
        { w with
          gl := gl
          scene :=
            { w.scene with
              m_textureIDs :=
                ⟨w.scene.m_textureIDs.val.set i.toNat ⟨textureID, tag⟩, by
                  rw [List.length_set]; exact w.scene.m_textureIDs.property⟩
              m_loadedTextures := i + 1 } })
    else none

/-- The loop of `BindGLTextures` from index `i` with `n` iterations left. -/
def SceneManager.BindGLTextures.loop (table : List TEXTURE_INFO) :
    Nat → Nat → GLState → Option GLState
  | 0, _, gl => some gl
  | n + 1, i, gl =>
    match table[i]? with
    | none => none
    | some e => loop table n (i + 1) (glBindTexture (glActiveTexture gl i) e.ID)

/-- The function `void BindGLTextures()`. -/
def SceneManager.BindGLTextures (w : World) : Option World :=
  match SceneManager.BindGLTextures.loop w.scene.m_textureIDs.val
      w.scene.m_loadedTextures.toNat 0 w.gl with
  | none => none
  | some gl => some { w with gl := gl }

/-- The loop of `DestroyGLTextures` from index `i` with `n` iterations left. -/
def SceneManager.DestroyGLTextures.loop (table : List TEXTURE_INFO) :
    Nat → Nat → GLState → Option GLState
  | 0, _, gl => some gl
  | n + 1, i, gl =>
    match table[i]? with
    | none => none
    | some e => loop table n (i + 1) (glDeleteTextures gl e.ID)

/-- The function `void DestroyGLTextures()`. -/
def SceneManager.DestroyGLTextures (w : World) : Option World :=
  match SceneManager.DestroyGLTextures.loop w.scene.m_textureIDs.val
      w.scene.m_loadedTextures.toNat 0 w.gl with
  | none => none
  | some gl => some { w with gl := gl, scene := { w.scene with m_loadedTextures := 0 } }

/-- The function `void SetTransformations(glm::vec3 scaleXYZ, float XrotationDegrees,
float YrotationDegrees, float ZrotationDegrees, glm::vec3 positionXYZ)`; the product
associates to the left, as `*` does in C++. -/
def SceneManager.SetTransformations (glm : GLM) (s : SceneManager) (scaleXYZ : vec3)
    (XrotationDegrees YrotationDegrees ZrotationDegrees : float) (positionXYZ : vec3) :
    SceneManager :=
  let model :=
    glm.mul
      (glm.mul
        (glm.mul
          (glm.mul (glm.translate positionXYZ)
            (glm.rotate (glm.radians ZrotationDegrees) ⟨f32_0_0, f32_0_0, f32_1_0⟩))
          (glm.rotate (glm.radians YrotationDegrees) ⟨f32_0_0, f32_1_0, f32_0_0⟩))
        (glm.rotate (glm.radians XrotationDegrees) ⟨f32_1_0, f32_0_0, f32_0_0⟩))
      (glm.scale scaleXYZ)
  match s.m_pShaderManager with
  | none => s
  | some sh => { s with m_pShaderManager := some (sh.setMat4Value g_ModelName model) }

/-- The function `void SetShaderColor(float r, float g, float b, float a)`. -/
def SceneManager.SetShaderColor (s : SceneManager) (r g b a : float) : SceneManager :=
  match s.m_pShaderManager with
  | none => s
  | some sh =>
    { s with
      m_pShaderManager :=
        some ((sh.setIntValue g_UseTextureName 0).setVec4Value g_ColorValueName ⟨r, g, b, a⟩) }

/-- The function `void SetShaderTexture(std::string textureTag)`; `none` when the
lookup reads outside the array. -/
def SceneManager.SetShaderTexture (s : SceneManager) (textureTag : String) :
    Option SceneManager :=
  match s.m_pShaderManager with
  | none => some s
  | some sh =>
    match s.FindTextureSlot textureTag with
    | none => none
    | some slot =>
      if slot ≥ 0 then
        some { s with
          m_pShaderManager :=
            some ((sh.setIntValue g_UseTextureName 1).setSampler2DValue g_TextureValueName slot) }
      else some s

/-- The function `void SetTextureUVScale(float u, float v)`. -/
def SceneManager.SetTextureUVScale (s : SceneManager) (u v : float) : SceneManager :=
  match s.m_pShaderManager with
  | none => s
  | some sh => { s with m_pShaderManager := some (sh.setVec2Value "uvScale" ⟨u, v⟩) }

/-- The function `void SetShaderMaterial(std::string tag)`.  The local `mat` is
read only after `FindMaterial` returned `true`, so its initial value `mat0` (an
indeterminate one in C++) never reaches a uniform. -/
def SceneManager.SetShaderMaterial (s : SceneManager) (tag : String) (mat0 : OBJECT_MATERIAL) :
    SceneManager :=
  let r := s.FindMaterial tag mat0
  if r.ret then
    match r.self.m_pShaderManager with
    | none => r.self
    | some sh =>
      { r.self with
        m_pShaderManager :=
          some (((sh.setVec3Value g_MaterialDiffuseName r.material.diffuseColor).setVec3Value
            g_MaterialSpecularName r.material.specularColor).setFloatValue
            g_MaterialShininessName r.material.shininess) }
  else r.self

/-- The six `Load...Mesh` calls that open `PrepareScene`. -/
def SceneManager.PrepareScene.loadMeshes (w : World) : World :=
  { w with
    scene :=
      { w.scene with
        m_basicMeshes :=
          w.scene.m_basicMeshes ++
            [Mesh.Plane, Mesh.Cylinder, Mesh.Box, Mesh.Cone, Mesh.Sphere, Mesh.Torus] } }

/-- The six `CreateGLTexture` calls of `PrepareScene`, in source order, each as
(file name, tag). -/
def SceneManager.PrepareScene.textures : List (String × String) :=
  [ ("textures/desk_texture.jpg", "deskTexture"),
    ("textures/mug_texture.jpg", "mugTexture"),
    ("textures/monitor_texture.jpg", "monitorTexture"),
    ("textures/screen_texture.jpg", "screenTexture"),
    ("textures/keyboard_texture.jpg", "keyboardTexture"),
    ("textures/lamp_texture.jpg", "lampTexture") ]

/-- Runs `CreateGLTexture` on each (file name, tag) of the list in turn, dropping
the returned `bool` as `PrepareScene` does. -/
def SceneManager.PrepareScene.loadTextures (ext : Externals) :
    List (String × String) → World → Option World
  | [], w => some w
  | (filename, tag) :: rest, w =>
    match SceneManager.CreateGLTexture ext w filename tag with
    | none => none
    | some (_, w1) => loadTextures ext rest w1

/-- The material `defaultMat` that `PrepareScene` builds. -/
def SceneManager.PrepareScene.defaultMat : OBJECT_MATERIAL :=
  { tag := "default"
    diffuseColor := vec3.splat f32_0_8
    specularColor := vec3.splat f32_1_0
    shininess := f32_64_0 }

/-- The function `void PrepareScene()`: six mesh loads, six texture loads, the
bind of all loaded textures, the push of the default material. -/
def SceneManager.PrepareScene (ext : Externals) (w : World) : Option World :=
  let w := SceneManager.PrepareScene.loadMeshes w
  match SceneManager.PrepareScene.loadTextures ext SceneManager.PrepareScene.textures w with
  | none => none
  | some w =>
    match SceneManager.BindGLTextures w with
    | none => none
    | some w =>
      some
        { w with
          scene :=
            { w.scene with
              m_objectMaterials :=
                w.scene.m_objectMaterials ++ [SceneManager.PrepareScene.defaultMat] } }

/-! ## `RenderScene` -/

/-- The constant `g_UseLightingName` of the source. -/
def g_UseLightingName : String := "bUseLighting"

/-- The constant `g_DirLightActive` of the source. -/
def g_DirLightActive : String := "directionalLight.bActive"

/-- The constant `g_DirLightDirection` of the source. -/
def g_DirLightDirection : String := "directionalLight.direction"

/-- The constant `g_DirLightAmbient` of the source. -/
def g_DirLightAmbient : String := "directionalLight.ambient"

/-- The constant `g_DirLightDiffuse` of the source. -/
def g_DirLightDiffuse : String := "directionalLight.diffuse"

/-- The constant `g_DirLightSpecular` of the source. -/
def g_DirLightSpecular : String := "directionalLight.specular"

/-- The arithmetic `RenderScene` relies on and the clock it reads, none of it in
the source tree: the glm functions of `SetTransformations`; glm's
`translate(m, v)` and `rotate(m, angle, axis)` on a given matrix; glm's sum and
difference of two `vec3`; the binary32 sum, product, difference and sine;
the value of `(float)glfwGetTime()`; and the indeterminate value the local `mat`
of `SetShaderMaterial` starts with. -/
structure RenderOps where
  glm : GLM
  translate_on : mat4 → vec3 → mat4
  rotate_on : mat4 → float → vec3 → mat4
  vec3_add : vec3 → vec3 → vec3
  vec3_sub : vec3 → vec3 → vec3
  fadd : float → float → float
  fmul : float → float → float
  fsub : float → float → float
  fsin : float → float
  time : float
  mat0 : OBJECT_MATERIAL

/-- One statement of `RenderScene` that acts on the object or the context: a
direct call of a shader-manager setter, a call of a member function, or a
`Draw...Mesh` call of `m_basicMeshes`. -/
inductive RenderCall where
  | setIntValue (name : String) (v : Int)
  | setVec3Value (name : String) (v : vec3)
  | setMat4Value (name : String) (v : mat4)
  | SetShaderMaterial (tag : String)
  | SetTransformations (scaleXYZ : vec3)
      (XrotationDegrees YrotationDegrees ZrotationDegrees : float) (positionXYZ : vec3)
  | SetShaderTexture (textureTag : String)
  | SetShaderColor (r g b a : float)
  | Draw (mesh : Mesh)

/-- What a run of `RenderScene` has done so far: the object, and the meshes drawn,
oldest first, each with the shader manager as it stood at the draw. -/
structure Frame where
  scene : SceneManager
  draws : List (Mesh × Option ShaderManager)

/-- Runs one statement of `RenderScene`; `none` when it dereferences a null
`m_pShaderManager` or reads outside the texture array. -/
def RenderCall.run (ops : RenderOps) : RenderCall → Frame → Option Frame
  | RenderCall.setIntValue name v, f =>
    match f.scene.m_pShaderManager with
    | none => none
    | some sh =>
      some { f with scene := { f.scene with m_pShaderManager := some (sh.setIntValue name v) } }
  | RenderCall.setVec3Value name v, f =>
    match f.scene.m_pShaderManager with
    | none => none
    | some sh =>
      some { f with scene := { f.scene with m_pShaderManager := some (sh.setVec3Value name v) } }
  | RenderCall.setMat4Value name v, f =>
    match f.scene.m_pShaderManager with
    | none => none
    | some sh =>
      some { f with scene := { f.scene with m_pShaderManager := some (sh.setMat4Value name v) } }
  | RenderCall.SetShaderMaterial tag, f =>
    some { f with scene := f.scene.SetShaderMaterial tag ops.mat0 }
  | RenderCall.SetTransformations scaleXYZ x y z positionXYZ, f =>
    some { f with scene := f.scene.SetTransformations ops.glm scaleXYZ x y z positionXYZ }
  | RenderCall.SetShaderTexture textureTag, f =>
    match f.scene.SetShaderTexture textureTag with
    | none => none
    | some s2 => some { f with scene := s2 }
  | RenderCall.SetShaderColor r g b a, f =>
    some { f with scene := f.scene.SetShaderColor r g b a }
  | RenderCall.Draw mesh, f =>
    some { f with draws := f.draws ++ [(mesh, f.scene.m_pShaderManager)] }

/-- Runs the statements of a list in order. -/
def RenderCall.runAll (ops : RenderOps) : List RenderCall → Frame → Option Frame
  | [], f => some f
  | c :: rest, f =>
    match c.run ops f with
    | none => none
    | some f2 => runAll ops rest f2

/-- The statements of `RenderScene` after its null check, in source order.  The
locals keep their source names; `scale` and `pos` are assigned anew before each
object as in the source. -/
def SceneManager.RenderScene.calls (ops : RenderOps) : List RenderCall :=
  let lighting : List RenderCall :=
    [ RenderCall.setIntValue g_UseLightingName 1,
      RenderCall.setIntValue g_DirLightActive 1,
      RenderCall.setVec3Value g_DirLightDirection ⟨fneg f32_1_0, fneg f32_1_5, fneg f32_1_0⟩,
      RenderCall.setVec3Value g_DirLightAmbient ⟨f32_0_35, f32_0_45, f32_0_8⟩,
      RenderCall.setVec3Value g_DirLightDiffuse (vec3.splat f32_0_9),
      RenderCall.setVec3Value g_DirLightSpecular (vec3.splat f32_1_2) ]
  let time : float := ops.time
  let hoverLightPos : vec3 := ⟨ops.fmul (ops.fsin time) f32_3_0, f32_4_0, f32_5_0⟩
  let hoverLight : List RenderCall :=
    [ RenderCall.setVec3Value "pointLights[0].position" hoverLightPos,
      RenderCall.setVec3Value "pointLights[0].ambient" ⟨f32_0_2, f32_0_25, f32_0_45⟩,
      RenderCall.setVec3Value "pointLights[0].diffuse" (vec3.splat f32_0_7),
      RenderCall.setVec3Value "pointLights[0].specular" (vec3.splat f32_1_0),
      RenderCall.SetShaderMaterial "default" ]
  let deskY : float := f32_0_0
  let deskWidth : float := f32_10_0
  let deskDepth : float := f32_8_0
  let deskHeight : float := f32_1_0
  let deskPos : vec3 := ⟨f32_0_0, deskY, f32_0_0⟩
  let scale : vec3 := ⟨deskWidth, deskHeight, deskDepth⟩
  let desk : List RenderCall :=
    [ RenderCall.SetTransformations scale f32_0_0 f32_0_0 f32_0_0 deskPos,
      RenderCall.SetShaderTexture "deskTexture",
      RenderCall.Draw Mesh.Plane ]
  let mugHeight : float := f32_1_0
  let mugOuterRadius : float := f32_0_37
  let mugInnerRadius : float := f32_0_28
  let holderHeight : float := f32_0_01
  let mugCenter : vec3 :=
    ⟨f32_2_0, ops.fadd (ops.fadd deskY holderHeight) (ops.fmul mugHeight f32_0_5), f32_1_0⟩
  let holderPos : vec3 :=
    ⟨mugCenter.x, ops.fadd deskY (ops.fmul holderHeight f32_0_0), mugCenter.z⟩
  let scale : vec3 := ⟨mugOuterRadius, ops.fmul holderHeight f32_0_0, mugOuterRadius⟩
  let mugHolder : List RenderCall :=
    [ RenderCall.SetTransformations scale f32_0_0 f32_0_0 f32_0_0 holderPos,
      RenderCall.SetShaderTexture "mugTexture",
      RenderCall.Draw Mesh.Cylinder ]
  let scale : vec3 := ⟨mugOuterRadius, ops.fmul mugHeight (fneg f32_0_5), mugOuterRadius⟩
  let mugBody : List RenderCall :=
    [ RenderCall.SetTransformations scale f32_0_0 f32_0_5 f32_0_0 mugCenter,
      RenderCall.SetShaderTexture "mugTexture",
      RenderCall.Draw Mesh.Cylinder ]
  let scale : vec3 := ⟨mugInnerRadius, ops.fmul mugHeight (fneg f32_0_0), mugInnerRadius⟩
  let innerPos : vec3 := ops.vec3_sub mugCenter ⟨f32_0_0, f32_0_025, f32_0_0⟩
  let mugHollow : List RenderCall :=
    [ RenderCall.SetTransformations scale f32_0_0 f32_0_0 f32_0_0 innerPos,
      RenderCall.SetShaderTexture "mugTexture",
      RenderCall.Draw Mesh.Cylinder ]
  let handleRadius : float := f32_0_15
  let handleThickness : float := f32_0_08
  let handlePos : vec3 :=
    ops.vec3_add mugCenter ⟨ops.fadd mugOuterRadius handleRadius, fneg f32_0_15, f32_0_0⟩
  let scale : vec3 := ⟨handleRadius, handleRadius, handleThickness⟩
  let mugHandle : List RenderCall :=
    [ RenderCall.SetTransformations scale f32_0_0 f32_0_0 f32_0_0 handlePos,
      RenderCall.SetShaderTexture "mugTexture",
      RenderCall.Draw Mesh.Torus ]
  let liquidPos : vec3 :=
    ops.vec3_add mugCenter ⟨f32_0_0, ops.fmul mugHeight (fneg f32_0_1), f32_0_0⟩
  let scale : vec3 := ⟨mugInnerRadius, ops.fmul mugHeight f32_0_15, mugInnerRadius⟩
  let mugLiquid : List RenderCall :=
    [ RenderCall.SetTransformations scale f32_0_0 f32_0_0 f32_0_0 liquidPos,
      RenderCall.SetShaderColor f32_0_55 f32_0_35 f32_0_1 f32_1_0,
      RenderCall.Draw Mesh.Cylinder ]
  let scale : vec3 := ⟨f32_5_0, f32_3_0, f32_0_2⟩
  let pos : vec3 := ⟨f32_0_0, ops.fadd deskY f32_2_0, fneg f32_3_5⟩
  let monitor : List RenderCall :=
    [ RenderCall.SetTransformations scale (fneg f32_5_0) f32_0_0 f32_0_0 pos,
      RenderCall.SetShaderTexture "monitorTexture",
      RenderCall.Draw Mesh.Box ]
  let scale : vec3 := ⟨f32_5_0, f32_3_0, f32_0_05⟩
  let pos : vec3 := ⟨f32_0_0, ops.fadd deskY f32_2_0, fneg f32_3_4⟩
  let monitorScreen : List RenderCall :=
    [ RenderCall.SetTransformations scale (fneg f32_5_0) f32_0_0 f32_0_0 pos,
      RenderCall.SetShaderTexture "screenTexture",
      RenderCall.SetShaderMaterial "default",
      RenderCall.Draw Mesh.Box ]
  let scale : vec3 := ⟨f32_0_5, f32_0_45, f32_0_5⟩
  let pos : vec3 := ⟨f32_0_0, ops.fadd deskY f32_0_175, fneg f32_3_5⟩
  let monitorStand : List RenderCall :=
    [ RenderCall.SetTransformations scale f32_0_0 f32_0_0 f32_0_0 pos,
      RenderCall.SetShaderColor f32_0_2 f32_0_2 f32_0_2 f32_1_0,
      RenderCall.Draw Mesh.Cylinder ]
  let footHeight : float := f32_0_9
  let monitorCenter : vec3 := pos
  let monitorFeet : List RenderCall :=
    [ RenderCall.SetTransformations ⟨f32_0_45, footHeight, f32_0_15⟩ f32_0_0 f32_0_5 f32_0_0
        ⟨ops.fsub monitorCenter.x f32_0_6, ops.fadd deskY (ops.fmul footHeight f32_0_5),
          monitorCenter.z⟩,
      RenderCall.Draw Mesh.Box,
      RenderCall.SetTransformations ⟨f32_0_45, footHeight, f32_0_15⟩ f32_0_0 f32_0_0 f32_0_0
        ⟨ops.fadd monitorCenter.x f32_0_6, ops.fadd deskY (ops.fmul footHeight f32_0_5),
          monitorCenter.z⟩,
      RenderCall.Draw Mesh.Box ]
  let scale : vec3 := ⟨f32_4_0, f32_0_3, f32_2_0⟩
  let pos : vec3 := ⟨fneg f32_0_6, ops.fadd deskY f32_0_15, fneg f32_1_2⟩
  let keyboard : List RenderCall :=
    [ RenderCall.SetTransformations scale f32_0_0 f32_0_0 f32_0_0 pos,
      RenderCall.SetShaderTexture "keyboardTexture",
      RenderCall.Draw Mesh.Box ]
  let lampBasePos : vec3 :=
    ⟨ops.fadd mugCenter.x f32_0_5, ops.fadd deskY f32_0_025, ops.fsub mugCenter.z f32_1_6⟩
  let scale : vec3 := ⟨f32_0_5, f32_0_05, f32_0_5⟩
  let lampBase : List RenderCall :=
    [ RenderCall.SetTransformations scale f32_0_0 f32_0_0 f32_0_0 lampBasePos,
      RenderCall.SetShaderTexture "lampTexture",
      RenderCall.Draw Mesh.Cylinder ]
  let lowerArmModel : mat4 :=
    ops.translate_on (mat4.diag f32_1_0) (ops.vec3_add lampBasePos ⟨f32_0_0, f32_0_05, f32_0_0⟩)
  let lowerArmModel : mat4 :=
    ops.glm.mul lowerArmModel
      (ops.rotate_on (mat4.diag f32_1_0) (ops.glm.radians f32_45_0) ⟨f32_1_0, f32_0_0, f32_0_0⟩)
  let lowerArmModel : mat4 := ops.glm.mul lowerArmModel (ops.glm.scale ⟨f32_0_08, f32_1_6, f32_0_08⟩)
  let lowerJointModel : mat4 := ops.translate_on lowerArmModel ⟨f32_0_0, f32_1_0, f32_0_0⟩
  let lowerJointModel : mat4 := ops.glm.mul lowerJointModel (ops.glm.scale (vec3.splat f32_0_12))
  let upperArmModel : mat4 := ops.translate_on lowerJointModel ⟨f32_0_0, f32_0_6, f32_0_0⟩
  let upperArmModel : mat4 :=
    ops.glm.mul upperArmModel
      (ops.rotate_on (mat4.diag f32_1_0) (ops.glm.radians (fneg f32_30_0))
        ⟨f32_1_0, f32_0_0, f32_0_0⟩)
  let upperArmModel : mat4 := ops.glm.mul upperArmModel (ops.glm.scale ⟨f32_0_07, f32_1_2, f32_0_07⟩)
  let upperJointModel : mat4 := ops.translate_on upperArmModel ⟨f32_0_0, f32_0_6, f32_0_0⟩
  let upperJointModel : mat4 := ops.glm.mul upperJointModel (ops.glm.scale (vec3.splat f32_0_1))
  let lampArms : List RenderCall :=
    [ RenderCall.setMat4Value g_ModelName lowerArmModel,
      RenderCall.Draw Mesh.Cylinder,
      RenderCall.setMat4Value g_ModelName lowerJointModel,
      RenderCall.Draw Mesh.Sphere,
      RenderCall.setMat4Value g_ModelName upperArmModel,
      RenderCall.Draw Mesh.Cylinder,
      RenderCall.setMat4Value g_ModelName upperJointModel,
      RenderCall.Draw Mesh.Sphere ]
  let headPos : vec3 :=
    ops.vec3_add ⟨upperJointModel.c3.x, upperJointModel.c3.y, upperJointModel.c3.z⟩
      ⟨f32_0_0, f32_0_2, f32_0_0⟩
  let scale : vec3 := ⟨f32_0_3, f32_0_5, f32_0_3⟩
  let lampHead : List RenderCall :=
    [ RenderCall.SetTransformations scale (fneg f32_80_0) f32_0_0 f32_0_0 headPos,
      RenderCall.SetShaderColor f32_0_05 f32_0_05 f32_0_05 f32_1_0,
      RenderCall.Draw Mesh.Cone ]
  let bulbPos : vec3 := ops.vec3_add headPos ⟨f32_0_0, fneg f32_0_1, f32_0_0⟩
  let scale : vec3 := vec3.splat f32_0_15
  let bulb : List RenderCall :=
    [ RenderCall.SetTransformations scale f32_0_0 f32_0_0 f32_0_0 bulbPos,
      RenderCall.SetShaderColor f32_1_0 f32_1_0 f32_0_8 f32_1_0,
      RenderCall.Draw Mesh.Sphere ]
  let lampLight : List RenderCall :=
    [ RenderCall.setVec3Value "pointLights[1].position" bulbPos,
      RenderCall.setVec3Value "pointLights[1].ambient" ⟨f32_0_1, f32_0_1, f32_0_05⟩,
      RenderCall.setVec3Value "pointLights[1].diffuse" ⟨f32_1_2, f32_1_0, f32_0_8⟩,
      RenderCall.setVec3Value "pointLights[1].specular" ⟨f32_1_5, f32_1_2, f32_1_0⟩ ]
  let scale : vec3 := vec3.splat f32_0_25
  let halo : List RenderCall :=
    [ RenderCall.SetShaderColor f32_1_0 f32_0_9 f32_0_7 f32_0_3,
      RenderCall.SetTransformations scale f32_0_0 f32_0_0 f32_0_0 bulbPos,
      RenderCall.Draw Mesh.Sphere ]
  lighting ++ hoverLight ++ desk ++ mugHolder ++ mugBody ++ mugHollow ++ mugHandle ++
    mugLiquid ++ monitor ++ monitorScreen ++ monitorStand ++ monitorFeet ++ keyboard ++
    lampBase ++ lampArms ++ lampHead ++ bulb ++ lampLight ++ halo

/-- The function `void RenderScene()`: nothing with a null `m_pShaderManager`,
otherwise the statements of `RenderScene.calls` in order, starting with no mesh
drawn. -/
def SceneManager.RenderScene (ops : RenderOps) (s : SceneManager) : Option Frame :=
  match s.m_pShaderManager with
  | none => some ⟨s, []⟩
  | some _ => RenderCall.runAll ops (SceneManager.RenderScene.calls ops) ⟨s, []⟩

/-! ## Vocabulary of the statements -/

/-- The loaded entries: indices below `m_loadedTextures`. -/
def SceneManager.loaded (s : SceneManager) : List TEXTURE_INFO :=
  s.m_textureIDs.val.take s.m_loadedTextures.toNat

/-- The tags of the loaded entries, slot 0 first. -/
def SceneManager.loadedTags (s : SceneManager) : List String :=
  s.loaded.map TEXTURE_INFO.tag

/-- The four calls that touch the texture table. -/
inductive Call where
  | CreateGLTexture (filename tag : String)
  | PrepareScene
  | BindGLTextures
  | DestroyGLTextures

/-- Runs one call against the outside world `ext`. -/
def Call.run (ext : Externals) (w : World) : Call → Option World
  | Call.CreateGLTexture filename tag =>
    match SceneManager.CreateGLTexture ext w filename tag with
    | none => none
    | some (_, w2) => some w2
  | Call.PrepareScene => SceneManager.PrepareScene ext w
  | Call.BindGLTextures => SceneManager.BindGLTextures w
  | Call.DestroyGLTextures => SceneManager.DestroyGLTextures w

/-- The call registers only tags that no loaded entry carries: the tag argument
of `CreateGLTexture`, the six tags of `PrepareScene`. -/
def Call.registersNewTags (w : World) : Call → Prop
  | Call.CreateGLTexture _ tag => tag ∉ w.scene.loadedTags
  | Call.PrepareScene => ∀ p ∈ SceneManager.PrepareScene.textures, p.2 ∉ w.scene.loadedTags
  | Call.BindGLTextures => True
  | Call.DestroyGLTextures => True

/-- The worlds reached from a freshly constructed `SceneManager` by a sequence of
table calls, each one admitted by `guard` in the world it is made in and each
one defined (no access outside the array). -/
inductive SceneManager.Reachable (guard : World → Call → Prop) : World → Prop where
  | fresh (pShaderManager : Option ShaderManager) (gl : GLState) (flip : Bool)
      (cout : List String) :
      SceneManager.Reachable guard ⟨SceneManager.ctor pShaderManager, gl, flip, cout⟩
  | call (ext : Externals) (c : Call) (w w2 : World) :
      SceneManager.Reachable guard w → guard w c → c.run ext w = some w2 →
      SceneManager.Reachable guard w2

/-- Whether the decoder accepts the file when `CreateGLTexture` asks for it (the
flip flag is set by then). -/
def Externals.decodes (ext : Externals) (filename : String) : Bool :=
  (ext.stbi_load filename true).isSome

/-- The (file name, tag) pairs of the list whose file decodes, in list order. -/
def SceneManager.PrepareScene.decoded (ext : Externals) (l : List (String × String)) :
    List (String × String) :=
  l.filter (fun p => ext.decodes p.1)

/-- The second object has the texture table, the count of loaded textures and the
material list of the first, and a shader manager exactly when the first has one. -/
def SceneManager.sameTable (s s2 : SceneManager) : Prop :=
  s2.m_loadedTextures = s.m_loadedTextures ∧ s2.m_textureIDs = s.m_textureIDs ∧
  s2.m_objectMaterials = s.m_objectMaterials ∧
  s2.m_pShaderManager.isSome = s.m_pShaderManager.isSome

/-- A sample decoder: every file decodes to a 2 x 2 RGB image. -/
def sampleImage : Image := ⟨2, 2, 3⟩

/-- A sample outside world: every decode succeeds and the names handed out are
1, 2, 3, ... -/
def sampleExt : Externals :=
  { stbi_load := fun _ _ => some sampleImage
    glGenTextures := fun gl => gl.textures.length + 1 }

/-- A sample outside world in which only the desk and the screen file fail to decode. -/
def flakyExt : Externals :=
  { stbi_load := fun filename _ =>
      if filename = "textures/desk_texture.jpg" ∨ filename = "textures/screen_texture.jpg" then none
      else some sampleImage
    glGenTextures := fun gl => gl.textures.length + 1 }

/-- A table with all 16 entries loaded, tags `t0` to `t15`, handles 1 to 16. -/
def fullScene : SceneManager :=
  { m_pShaderManager := none
    m_basicMeshes := []
    m_loadedTextures := 16
    m_textureIDs :=
      ⟨[⟨1, "t0"⟩, ⟨2, "t1"⟩, ⟨3, "t2"⟩, ⟨4, "t3"⟩, ⟨5, "t4"⟩, ⟨6, "t5"⟩, ⟨7, "t6"⟩, ⟨8, "t7"⟩,
        ⟨9, "t8"⟩, ⟨10, "t9"⟩, ⟨11, "t10"⟩, ⟨12, "t11"⟩, ⟨13, "t12"⟩, ⟨14, "t13"⟩,
        ⟨15, "t14"⟩, ⟨16, "t15"⟩], by decide⟩
    m_objectMaterials := [] }

/-- A table with two loaded entries and a stale third one left behind by an
earlier `DestroyGLTextures`; the stale entry repeats the tag of slot 0. -/
def staleScene : SceneManager :=
  { m_pShaderManager := some ⟨[]⟩
    m_basicMeshes := []
    m_loadedTextures := 2
    m_textureIDs :=
      ⟨[⟨7, "wood"⟩, ⟨4294967295, "brick"⟩, ⟨5, "wood"⟩, ⟨6, "glass"⟩] ++
        List.replicate 12 ⟨0, ""⟩, by decide⟩
    m_objectMaterials :=
      [⟨"metal", ⟨1, 2, 3⟩, ⟨4, 5, 6⟩, 7⟩, ⟨"wood", ⟨8, 9, 10⟩, ⟨11, 12, 13⟩, 14⟩,
        ⟨"metal", ⟨0, 0, 0⟩, ⟨0, 0, 0⟩, 0⟩] }

/-- A fresh OpenGL texture state: unit 0 active, nothing bound, no texture. -/
def freshGL : GLState := ⟨0, fun _ => 0, []⟩

/-- The world right after `SceneManager(pShaderManager)` ran in a fresh context. -/
def freshWorld (pShaderManager : Option ShaderManager) : World :=
  ⟨SceneManager.ctor pShaderManager, freshGL, false, []⟩

/-- The world after the constructor and one `PrepareScene` in which the desk and
the screen file fail to decode. -/
def preparedWorld : World :=
  (SceneManager.PrepareScene flakyExt (freshWorld (some ⟨[]⟩))).getD (freshWorld (some ⟨[]⟩))

/-! ## The two lookup loops, as list searches -/

theorem SceneManager.FindTextureSlot_loop_eq (tag : String) :
    ∀ (n : Nat) (pre rest : List TEXTURE_INFO), n ≤ rest.length →
      SceneManager.FindTextureSlot.loop (pre ++ rest) tag n pre.length =
        some (if tag ∈ (rest.take n).map TEXTURE_INFO.tag then
          ((pre.length + ((rest.take n).map TEXTURE_INFO.tag).indexOf tag : Nat) : Int)
          else -1) := by
  intro n
  induction n with
  | zero => intro pre rest _; simp [SceneManager.FindTextureSlot.loop]
  | succ n ih =>
    intro pre rest hn
    cases rest with
    | nil => simp at hn
    | cons e rest =>
      have hget : (pre ++ e :: rest)[pre.length]? = some e := by
        rw [List.getElem?_append_right (le_refl _)]; simp
      have hn2 : n ≤ rest.length := by simpa using hn
      have hrec := ih (pre ++ [e]) rest hn2
      simp only [List.append_assoc, List.singleton_append, List.length_append,
        List.length_singleton] at hrec
      simp only [SceneManager.FindTextureSlot.loop, hget]
      by_cases he : e.tag = tag
      · simp [he]
      · have he2 : ¬ tag = e.tag := fun h => he h.symm
        simp only [he, if_false, hrec, List.take_succ_cons, List.map_cons, List.mem_cons, he2,
          false_or, List.indexOf_cons_ne _ he]
        split
        · simp; omega
        · simp

theorem SceneManager.FindTextureID_loop_eq (tag : String) :
    ∀ (n : Nat) (pre rest : List TEXTURE_INFO), n ≤ rest.length →
      SceneManager.FindTextureID.loop (pre ++ rest) tag n pre.length =
        some (match (rest.take n).find? (fun e => decide (e.tag = tag)) with
          | some e => GLuint_to_int e.ID
          | none => -1) := by
  intro n
  induction n with
  | zero => intro pre rest _; simp [SceneManager.FindTextureID.loop]
  | succ n ih =>
    intro pre rest hn
    cases rest with
    | nil => simp at hn
    | cons e rest =>
      have hget : (pre ++ e :: rest)[pre.length]? = some e := by
        rw [List.getElem?_append_right (le_refl _)]; simp
      have hn2 : n ≤ rest.length := by simpa using hn
      have hrec := ih (pre ++ [e]) rest hn2
      simp only [List.append_assoc, List.singleton_append, List.length_append,
        List.length_singleton] at hrec
      simp only [SceneManager.FindTextureID.loop, hget]
      by_cases he : e.tag = tag
      · simp [he]
      · simp [he, hrec]

theorem SceneManager.toNat_le_length (s : SceneManager) (h : s.m_loadedTextures ≤ 16) :
    s.m_loadedTextures.toNat ≤ s.m_textureIDs.val.length := by
  rw [s.m_textureIDs.property]; omega

/-- Below capacity, `FindTextureSlot` is the position of the tag among the loaded
tags, or -1 when it is not among them. -/
theorem SceneManager.FindTextureSlot_eq (s : SceneManager) (tag : String)
    (h : s.m_loadedTextures ≤ 16) :
    s.FindTextureSlot tag =
      some (if tag ∈ s.loadedTags then ((s.loadedTags.indexOf tag : Nat) : Int) else -1) := by
  have := SceneManager.FindTextureSlot_loop_eq tag s.m_loadedTextures.toNat []
    s.m_textureIDs.val (s.toNat_le_length h)
  simpa [SceneManager.FindTextureSlot, SceneManager.loadedTags, SceneManager.loaded] using this

/-- Below capacity, `FindTextureID` is the converted handle of the first loaded
entry of that tag, or -1 when there is none. -/
theorem SceneManager.FindTextureID_eq (s : SceneManager) (tag : String)
    (h : s.m_loadedTextures ≤ 16) :
    s.FindTextureID tag =
      some (match s.loaded.find? (fun e => decide (e.tag = tag)) with
        | some e => GLuint_to_int e.ID
        | none => -1) := by
  have := SceneManager.FindTextureID_loop_eq tag s.m_loadedTextures.toNat []
    s.m_textureIDs.val (s.toNat_le_length h)
  simpa [SceneManager.FindTextureID, SceneManager.loaded] using this

/-- The loop of `FindTextureSlot`, index by index: it ends, and it returns either
-1 with no match in its range or the first matching index of its range. -/
theorem SceneManager.FindTextureSlot_loop_index (table : List TEXTURE_INFO) (tag : String) :
    ∀ (n i : Nat), i + n ≤ table.length →
      ∃ r : Int, SceneManager.FindTextureSlot.loop table tag n i = some r ∧
        ((r = -1 ∧ ∀ j : Nat, i ≤ j → j < i + n → ∀ e, table[j]? = some e → e.tag ≠ tag) ∨
          ∃ k : Nat, r = (k : Int) ∧ i ≤ k ∧ k < i + n ∧
            (∃ e, table[k]? = some e ∧ e.tag = tag) ∧
            ∀ j : Nat, i ≤ j → j < k → ∀ e, table[j]? = some e → e.tag ≠ tag) := by
  intro n
  induction n with
  | zero =>
    intro i _
    refine ⟨-1, by simp [SceneManager.FindTextureSlot.loop], Or.inl ⟨rfl, ?_⟩⟩
    intro j h1 h2; omega
  | succ n ih =>
    intro i hi
    have hlt : i < table.length := by omega
    have hget : table[i]? = some table[i] := List.getElem?_eq_getElem hlt
    by_cases he : (table[i]).tag = tag
    · refine ⟨(i : Int), by simp [SceneManager.FindTextureSlot.loop, hget, he], Or.inr ?_⟩
      refine ⟨i, rfl, le_refl _, by omega, ⟨table[i], hget, he⟩, ?_⟩
      intro j h1 h2; omega
    · obtain ⟨r, hr, hcase⟩ := ih (i + 1) (by omega)
      refine ⟨r, by simp [SceneManager.FindTextureSlot.loop, hget, he, hr], ?_⟩
      have hfirst : ∀ j : Nat, i ≤ j → j < i + 1 → ∀ e, table[j]? = some e → e.tag ≠ tag := by
        intro j h1 h2 e hje
        have hji : j = i := by omega
        subst hji
        rw [hget] at hje
        cases hje
        exact he
      rcases hcase with ⟨hr1, hall⟩ | ⟨k, hk, hik, hkn, hmatch, hbefore⟩
      · refine Or.inl ⟨hr1, ?_⟩
        intro j h1 h2 e hje
        by_cases hj : j < i + 1
        · exact hfirst j h1 hj e hje
        · exact hall j (by omega) (by omega) e hje
      · refine Or.inr ⟨k, hk, by omega, by omega, hmatch, ?_⟩
        intro j h1 h2 e hje
        by_cases hj : j < i + 1
        · exact hfirst j h1 hj e hje
        · exact hbefore j (by omega) h2 e hje

/-- C1. `FindTextureSlot` on a table whose loaded entries exist
(`m_loadedTextures ≤ 16`): the call returns; the result is -1 exactly when no
entry at an index below `m_loadedTextures` carries the tag; any other result is
the smallest index below `m_loadedTextures` whose entry carries the tag.  Entries
at or above `m_loadedTextures` play no part. -/
theorem FindTextureSlot_first_loaded_match (s : SceneManager) (tag : String)
    (h : s.m_loadedTextures ≤ 16) :
    ∃ r : Int, s.FindTextureSlot tag = some r ∧
      (r = -1 ↔ ∀ i : Nat, (i : Int) < s.m_loadedTextures →
        ∀ e, s.m_textureIDs.val[i]? = some e → e.tag ≠ tag) ∧
      (r ≠ -1 → ∃ i : Nat, r = (i : Int) ∧ (i : Int) < s.m_loadedTextures ∧
        (∃ e, s.m_textureIDs.val[i]? = some e ∧ e.tag = tag) ∧
        ∀ j : Nat, j < i → ∀ e, s.m_textureIDs.val[j]? = some e → e.tag ≠ tag) := by
  obtain ⟨r, hr, hcase⟩ := SceneManager.FindTextureSlot_loop_index s.m_textureIDs.val tag
    s.m_loadedTextures.toNat 0 (by have := s.toNat_le_length h; omega)
  refine ⟨r, hr, ?_, ?_⟩
  · constructor
    · intro hneg i hi e hie
      rcases hcase with ⟨_, hall⟩ | ⟨k, hk, _⟩
      · exact hall i (Nat.zero_le _) (by omega) e hie
      · omega
    · intro hall
      rcases hcase with ⟨hr1, _⟩ | ⟨k, _, _, hkn, ⟨e, hke, hkt⟩, _⟩
      · exact hr1
      · exact absurd hkt (hall k (by omega) e hke)
  · intro hne
    rcases hcase with ⟨hr1, _⟩ | ⟨k, hk, _, hkn, hmatch, hbefore⟩
    · exact absurd hr1 hne
    · exact ⟨k, hk, by omega, hmatch, fun j hj e hje => hbefore j (Nat.zero_le _) hj e hje⟩

/-- The loop of `FindTextureID`, index by index: it ends, and it returns either
-1 with no match in its range or the converted handle at the first matching
index of its range. -/
theorem SceneManager.FindTextureID_loop_index (table : List TEXTURE_INFO) (tag : String) :
    ∀ (n i : Nat), i + n ≤ table.length →
      ∃ r : Int, SceneManager.FindTextureID.loop table tag n i = some r ∧
        ((r = -1 ∧ ∀ j : Nat, i ≤ j → j < i + n → ∀ e, table[j]? = some e → e.tag ≠ tag) ∨
          ∃ k : Nat, i ≤ k ∧ k < i + n ∧
            (∃ e, table[k]? = some e ∧ e.tag = tag ∧ r = GLuint_to_int e.ID) ∧
            ∀ j : Nat, i ≤ j → j < k → ∀ e, table[j]? = some e → e.tag ≠ tag) := by
  intro n
  induction n with
  | zero =>
    intro i _
    refine ⟨-1, by simp [SceneManager.FindTextureID.loop], Or.inl ⟨rfl, ?_⟩⟩
    intro j h1 h2; omega
  | succ n ih =>
    intro i hi
    have hlt : i < table.length := by omega
    have hget : table[i]? = some table[i] := List.getElem?_eq_getElem hlt
    by_cases he : (table[i]).tag = tag
    · refine ⟨GLuint_to_int (table[i]).ID,
        by simp [SceneManager.FindTextureID.loop, hget, he], Or.inr ?_⟩
      refine ⟨i, le_refl _, by omega, ⟨table[i], hget, he, rfl⟩, ?_⟩
      intro j h1 h2; omega
    · obtain ⟨r, hr, hcase⟩ := ih (i + 1) (by omega)
      refine ⟨r, by simp [SceneManager.FindTextureID.loop, hget, he, hr], ?_⟩
      have hfirst : ∀ j : Nat, i ≤ j → j < i + 1 → ∀ e, table[j]? = some e → e.tag ≠ tag := by
        intro j h1 h2 e hje
        have hji : j = i := by omega
        subst hji
        rw [hget] at hje
        cases hje
        exact he
      rcases hcase with ⟨hr1, hall⟩ | ⟨k, hik, hkn, hmatch, hbefore⟩
      · refine Or.inl ⟨hr1, ?_⟩
        intro j h1 h2 e hje
        by_cases hj : j < i + 1
        · exact hfirst j h1 hj e hje
        · exact hall j (by omega) (by omega) e hje
      · refine Or.inr ⟨k, by omega, by omega, hmatch, ?_⟩
        intro j h1 h2 e hje
        by_cases hj : j < i + 1
        · exact hfirst j h1 hj e hje
        · exact hbefore j (by omega) h2 e hje

/-- The range-for of `FindMaterial` over any list: the flag says whether a tag
matches, a hit yields the first matching material, a miss keeps the argument. -/
theorem SceneManager.FindMaterial_loop_spec (tag : String) (material : OBJECT_MATERIAL) :
    ∀ l : List OBJECT_MATERIAL,
      ((SceneManager.FindMaterial.loop tag material l).1 = true ↔ ∃ m ∈ l, m.tag = tag) ∧
      ((SceneManager.FindMaterial.loop tag material l).1 = true →
        ∃ pre m post, l = pre ++ m :: post ∧ (∀ x ∈ pre, x.tag ≠ tag) ∧ m.tag = tag ∧
          (SceneManager.FindMaterial.loop tag material l).2 = m) ∧
      ((SceneManager.FindMaterial.loop tag material l).1 = false →
        (SceneManager.FindMaterial.loop tag material l).2 = material) := by
  intro l
  induction l with
  | nil => simp [SceneManager.FindMaterial.loop]
  | cons a l ih =>
    by_cases ha : a.tag = tag
    · simp only [SceneManager.FindMaterial.loop, ha, if_true]
      refine ⟨⟨fun _ => ⟨a, List.mem_cons_self a l, ha⟩, fun _ => trivial⟩, ?_, ?_⟩
      · intro _
        exact ⟨[], a, l, rfl, by simp, ha, rfl⟩
      · intro hf; simp at hf
    · obtain ⟨h1, h2, h3⟩ := ih
      simp only [SceneManager.FindMaterial.loop, ha, if_false]
      refine ⟨?_, ?_, h3⟩
      · rw [h1]
        constructor
        · rintro ⟨m, hm, hmt⟩
          exact ⟨m, List.mem_cons_of_mem a hm, hmt⟩
        · rintro ⟨m, hm, hmt⟩
          rcases List.mem_cons.mp hm with rfl | hm2
          · exact absurd hmt ha
          · exact ⟨m, hm2, hmt⟩
      · intro ht
        obtain ⟨pre, m, post, hl, hpre, hmt, hres⟩ := h2 ht
        refine ⟨a :: pre, m, post, by simp [hl], ?_, hmt, hres⟩
        intro x hx
        rcases List.mem_cons.mp hx with rfl | hx2
        · exact ha
        · exact hpre x hx2

/-- C3. `FindMaterial` is an exact-match lookup: it returns `true` exactly when
some material of the list has a tag equal to the argument; on `true` the
out-parameter is the first such material in list order (the whole record, so tag,
diffuse colour, specular colour and shininess); on `false` the out-parameter keeps
the value it had on entry; the object, and with it the material list, is the same
after the call. -/
theorem FindMaterial_exact_first_match (s : SceneManager) (tag : String)
    (material : OBJECT_MATERIAL) :
    ((s.FindMaterial tag material).ret = true ↔ ∃ m ∈ s.m_objectMaterials, m.tag = tag) ∧
    ((s.FindMaterial tag material).ret = true →
      ∃ pre m post, s.m_objectMaterials = pre ++ m :: post ∧ (∀ x ∈ pre, x.tag ≠ tag) ∧
        m.tag = tag ∧ (s.FindMaterial tag material).material = m ∧
        (s.FindMaterial tag material).material.tag = m.tag ∧
        (s.FindMaterial tag material).material.diffuseColor = m.diffuseColor ∧
        (s.FindMaterial tag material).material.specularColor = m.specularColor ∧
        (s.FindMaterial tag material).material.shininess = m.shininess) ∧
    ((s.FindMaterial tag material).ret = false →
      (s.FindMaterial tag material).material = material) ∧
    (s.FindMaterial tag material).self = s ∧
    (s.FindMaterial tag material).self.m_objectMaterials = s.m_objectMaterials := by
  obtain ⟨h1, h2, h3⟩ := SceneManager.FindMaterial_loop_spec tag material s.m_objectMaterials
  refine ⟨h1, ?_, h3, rfl, rfl⟩
  intro ht
  obtain ⟨pre, m, post, hl, hpre, hmt, hres⟩ := h2 ht
  have hres2 : (s.FindMaterial tag material).material = m := hres
  exact ⟨pre, m, post, hl, hpre, hmt, hres2, by rw [hres2], by rw [hres2], by rw [hres2],
    by rw [hres2]⟩

/-! ## `CreateGLTexture` -/

/-- A failed decode: `false`, and only the flip flag and the console change. -/
theorem SceneManager.CreateGLTexture_fail (ext : Externals) (w : World) (filename tag : String)
    (h : ext.stbi_load filename true = none) :
    SceneManager.CreateGLTexture ext w filename tag =
      some (false,
        { w with
          stbi_flip_vertically_on_load := true
          cout := w.cout ++ ["Failed to load texture: " ++ filename] }) := by
  simp [SceneManager.CreateGLTexture, h]

/-- A successful decode below capacity: `true`, and the new entry sits at the old
`m_loadedTextures`. -/
theorem SceneManager.CreateGLTexture_ok (ext : Externals) (w : World) (filename tag : String)
    (data : Image) (h : ext.stbi_load filename true = some data)
    (h0 : 0 ≤ w.scene.m_loadedTextures) (h16 : w.scene.m_loadedTextures < 16) :
    ∃ w2, SceneManager.CreateGLTexture ext w filename tag = some (true, w2) ∧
      w2.scene.m_loadedTextures = w.scene.m_loadedTextures + 1 ∧
      w2.scene.m_textureIDs.val =
        w.scene.m_textureIDs.val.set w.scene.m_loadedTextures.toNat
          ⟨ext.glGenTextures w.gl % 2 ^ 32, tag⟩ ∧
      w2.scene.m_pShaderManager = w.scene.m_pShaderManager ∧
      w2.scene.m_basicMeshes = w.scene.m_basicMeshes ∧
      w2.scene.m_objectMaterials = w.scene.m_objectMaterials ∧
      w2.cout = w.cout := by
  simp [SceneManager.CreateGLTexture, h, h0, h16]

/-- C4, as amended. With fewer than 16 textures loaded (`0 ≤ m_loadedTextures < 16`)
`CreateGLTexture` returns; it returns `false` exactly when the decode fails, and
then the object (table and `m_loadedTextures` included) and the OpenGL texture
state are what they were; when it returns `true`, `m_loadedTextures` has grown by
exactly 1, the entry at the old `m_loadedTextures` is the new handle with the
given tag, and every entry at a smaller index is what it was. -/
theorem CreateGLTexture_below_capacity (ext : Externals) (w : World) (filename tag : String)
    (h0 : 0 ≤ w.scene.m_loadedTextures) (h16 : w.scene.m_loadedTextures < 16) :
    ∃ b w2, SceneManager.CreateGLTexture ext w filename tag = some (b, w2) ∧
      (b = false ↔ ext.stbi_load filename true = none) ∧
      (b = false → w2.scene = w.scene ∧ w2.gl = w.gl) ∧
      (b = true →
        w2.scene.m_loadedTextures = w.scene.m_loadedTextures + 1 ∧
        w2.scene.m_textureIDs.val[w.scene.m_loadedTextures.toNat]? =
          some ⟨ext.glGenTextures w.gl % 2 ^ 32, tag⟩ ∧
        ∀ j : Nat, (j : Int) < w.scene.m_loadedTextures →
          w2.scene.m_textureIDs.val[j]? = w.scene.m_textureIDs.val[j]?) := by
  cases hd : ext.stbi_load filename true with
  | none =>
    refine ⟨false, _, SceneManager.CreateGLTexture_fail ext w filename tag hd, by simp, ?_, ?_⟩
    · intro _; exact ⟨rfl, rfl⟩
    · intro hb; cases hb
  | some data =>
    obtain ⟨w2, hw2, hn, htab, _⟩ :=
      SceneManager.CreateGLTexture_ok ext w filename tag data hd h0 h16
    refine ⟨true, w2, hw2, by simp, ?_, ?_⟩
    · intro hb; cases hb
    · intro _
      have hlen : w.scene.m_loadedTextures.toNat < w.scene.m_textureIDs.val.length := by
        rw [w.scene.m_textureIDs.property]; omega
      refine ⟨hn, ?_, ?_⟩
      · rw [htab, List.getElem?_set_self hlen]
      · intro j hj
        rw [htab, List.getElem?_set_ne (by omega)]

/-- C4 at a concrete call: two textures loaded, the decode of a third succeeds. -/
theorem CreateGLTexture_below_capacity_witness :
    (0 ≤ staleScene.m_loadedTextures ∧ staleScene.m_loadedTextures < 16) ∧
    ∃ b w2, SceneManager.CreateGLTexture sampleExt ⟨staleScene, freshGL, false, []⟩
        "textures/mug_texture.jpg" "mugTexture" = some (b, w2) ∧
      (b = false ↔ sampleExt.stbi_load "textures/mug_texture.jpg" true = none) ∧
      (b = false → w2.scene = staleScene ∧ w2.gl = freshGL) ∧
      (b = true →
        w2.scene.m_loadedTextures = staleScene.m_loadedTextures + 1 ∧
        w2.scene.m_textureIDs.val[staleScene.m_loadedTextures.toNat]? =
          some ⟨sampleExt.glGenTextures freshGL % 2 ^ 32, "mugTexture"⟩ ∧
        ∀ j : Nat, (j : Int) < staleScene.m_loadedTextures →
          w2.scene.m_textureIDs.val[j]? = staleScene.m_textureIDs.val[j]?) :=
  ⟨⟨by decide, by decide⟩,
    CreateGLTexture_below_capacity sampleExt ⟨staleScene, freshGL, false, []⟩
      "textures/mug_texture.jpg" "mugTexture" (by decide) (by decide)⟩

/-- C4 as stated fails on a full table: with all 16 entries loaded and a file
that decodes, the write `m_textureIDs[16]` is outside the array, so the call has
no defined result, let alone `true` with a new entry at index 16. -/
theorem CreateGLTexture_full_table_counterexample :
    fullScene.m_loadedTextures = 16 ∧
    sampleExt.stbi_load "textures/extra.jpg" true = some sampleImage ∧
    SceneManager.CreateGLTexture sampleExt ⟨fullScene, freshGL, false, []⟩
      "textures/extra.jpg" "extra" = none ∧
    ¬ ∃ w2, SceneManager.CreateGLTexture sampleExt ⟨fullScene, freshGL, false, []⟩
      "textures/extra.jpg" "extra" = some (true, w2) := by
  have hnone : SceneManager.CreateGLTexture sampleExt ⟨fullScene, freshGL, false, []⟩
      "textures/extra.jpg" "extra" = none := by
    simp [SceneManager.CreateGLTexture, sampleExt, fullScene]
  refine ⟨rfl, rfl, hnone, ?_⟩
  rintro ⟨w2, hw2⟩
  rw [hnone] at hw2
  cases hw2

/-! ## The six loads of `PrepareScene` -/

theorem SceneManager.take_succ_set_self {α : Type} (l : List α) (n : Nat) (x : α) (h : n < l.length) :
    (l.set n x).take (n + 1) = l.take n ++ [x] := by
  rw [List.take_succ, List.getElem?_set_self h]
  congr 1
  apply List.ext_getElem?
  intro i
  by_cases hi : i < n
  · rw [List.getElem?_take_of_lt hi, List.getElem?_take_of_lt hi,
      List.getElem?_set_ne (by omega)]
  · rw [List.getElem?_take_eq_none (by omega), List.getElem?_take_eq_none (by omega)]

/-- A successful `CreateGLTexture` below capacity appends its entry to the loaded
entries. -/
theorem SceneManager.CreateGLTexture_ok_loaded (ext : Externals) (w : World)
    (filename tag : String) (data : Image) (h : ext.stbi_load filename true = some data)
    (h0 : 0 ≤ w.scene.m_loadedTextures) (h16 : w.scene.m_loadedTextures < 16) :
    ∃ w2, SceneManager.CreateGLTexture ext w filename tag = some (true, w2) ∧
      w2.scene.m_loadedTextures = w.scene.m_loadedTextures + 1 ∧
      w2.scene.loaded = w.scene.loaded ++ [⟨ext.glGenTextures w.gl % 2 ^ 32, tag⟩] ∧
      w2.scene.m_pShaderManager = w.scene.m_pShaderManager ∧
      w2.scene.m_basicMeshes = w.scene.m_basicMeshes ∧
      w2.scene.m_objectMaterials = w.scene.m_objectMaterials := by
  obtain ⟨w2, hw2, hn, htab, hs, hm, ho, _⟩ :=
    SceneManager.CreateGLTexture_ok ext w filename tag data h h0 h16
  refine ⟨w2, hw2, hn, ?_, hs, hm, ho⟩
  have hlen : w.scene.m_loadedTextures.toNat < w.scene.m_textureIDs.val.length := by
    rw [w.scene.m_textureIDs.property]; omega
  have hnat : (w.scene.m_loadedTextures + 1).toNat = w.scene.m_loadedTextures.toNat + 1 := by
    omega
  simp only [SceneManager.loaded, hn, htab, hnat]
  exact SceneManager.take_succ_set_self _ _ _ hlen

/-- The conversion of a `GLuint` to `int`, in numbers: the value itself below
`2 ^ 31`, the value less `2 ^ 32` from there to `2 ^ 32`; always the one `int`
congruent to the value modulo `2 ^ 32`. -/
theorem GLuint_to_int_value (u : Nat) :
    (u < 2 ^ 31 → GLuint_to_int u = (u : Int)) ∧
    (2 ^ 31 ≤ u → u < 2 ^ 32 → GLuint_to_int u = (u : Int) - 2 ^ 32) ∧
    -(2 : Int) ^ 31 ≤ GLuint_to_int u ∧ GLuint_to_int u < (2 : Int) ^ 31 ∧
    (2 : Int) ^ 32 ∣ (GLuint_to_int u - (u : Int)) := by
  unfold GLuint_to_int
  refine ⟨?_, ?_, ?_, ?_, ?_⟩
  · intro hu
    have hmod : u % 2 ^ 32 = u := Nat.mod_eq_of_lt (by omega)
    rw [hmod, if_pos hu]
  · intro h1 h2
    have hmod : u % 2 ^ 32 = u := Nat.mod_eq_of_lt h2
    rw [hmod, if_neg (by omega)]
  · split <;> omega
  · split <;> omega
  · have hdiv : (u : Int) = (2 : Int) ^ 32 * ((u / 2 ^ 32 : Nat) : Int) + ((u % 2 ^ 32 : Nat) : Int) := by
      have := Nat.div_add_mod u (2 ^ 32)
      omega
    split
    · exact ⟨-((u / 2 ^ 32 : Nat) : Int), by rw [hdiv]; ring⟩
    · exact ⟨-((u / 2 ^ 32 : Nat) : Int) - 1, by rw [hdiv]; ring⟩

/-- A successful `CreateGLTexture` of a tag that was not loaded makes
`FindTextureID` of that tag the converted new handle. -/
theorem SceneManager.FindTextureID_after_create (ext : Externals) (w : World)
    (filename tag : String) (data : Image) (h : ext.stbi_load filename true = some data)
    (h0 : 0 ≤ w.scene.m_loadedTextures) (h16 : w.scene.m_loadedTextures < 16)
    (hnew : tag ∉ w.scene.loadedTags) :
    ∃ w2, SceneManager.CreateGLTexture ext w filename tag = some (true, w2) ∧
      w2.scene.FindTextureID tag = some (GLuint_to_int (ext.glGenTextures w.gl % 2 ^ 32)) := by
  obtain ⟨w2, hw2, hn, hl, _⟩ :=
    SceneManager.CreateGLTexture_ok_loaded ext w filename tag data h h0 h16
  refine ⟨w2, hw2, ?_⟩
  rw [SceneManager.FindTextureID_eq w2.scene tag (by omega), hl, List.find?_append]
  have hnone : w.scene.loaded.find? (fun e => decide (e.tag = tag)) = none := by
    rw [List.find?_eq_none]
    intro e he hdec
    exact hnew (List.mem_map.mpr ⟨e, he, by simpa using hdec⟩)
  simp [hnone]

/-- C2. `FindTextureID` on a table whose loaded entries exist
(`m_loadedTextures ≤ 16`): the call returns; the result is -1 when no entry below
`m_loadedTextures` carries the tag; and when index `i` is the first one below
`m_loadedTextures` whose entry carries the tag, the result is that entry's `ID`
converted from unsigned 32-bit to `int`: the `ID` itself when it is below
`2 ^ 31`, the `ID` less `2 ^ 32` when it is from `2 ^ 31` up to `2 ^ 32`, and in
every case the one `int` between `-2 ^ 31` and `2 ^ 31` congruent to the `ID`
modulo `2 ^ 32`.  That `ID` is the handle `CreateGLTexture` recorded: right after
a successful `CreateGLTexture` of a tag that was not loaded, `FindTextureID` of
the tag is the handle `glGenTextures` gave that call, converted the same way. -/
theorem FindTextureID_first_loaded_handle (s : SceneManager) (tag : String)
    (h : s.m_loadedTextures ≤ 16) :
    (∃ r : Int, s.FindTextureID tag = some r ∧
      ((∀ i : Nat, (i : Int) < s.m_loadedTextures →
          ∀ e, s.m_textureIDs.val[i]? = some e → e.tag ≠ tag) → r = -1) ∧
      (∀ (i : Nat) (e : TEXTURE_INFO), (i : Int) < s.m_loadedTextures →
          s.m_textureIDs.val[i]? = some e → e.tag = tag →
          (∀ j : Nat, j < i → ∀ e2, s.m_textureIDs.val[j]? = some e2 → e2.tag ≠ tag) →
          (e.ID < 2 ^ 31 → r = (e.ID : Int)) ∧
          (2 ^ 31 ≤ e.ID → e.ID < 2 ^ 32 → r = (e.ID : Int) - 2 ^ 32) ∧
          -(2 : Int) ^ 31 ≤ r ∧ r < (2 : Int) ^ 31 ∧ (2 : Int) ^ 32 ∣ (r - (e.ID : Int)))) ∧
    (∀ (ext : Externals) (gl : GLState) (flip : Bool) (cout : List String)
        (filename : String) (data : Image),
      ext.stbi_load filename true = some data → 0 ≤ s.m_loadedTextures →
      s.m_loadedTextures < 16 → tag ∉ s.loadedTags →
      ∃ (w2 : World) (v : Int),
        SceneManager.CreateGLTexture ext ⟨s, gl, flip, cout⟩ filename tag = some (true, w2) ∧
        w2.scene.FindTextureID tag = some v ∧
        (ext.glGenTextures gl % 2 ^ 32 < 2 ^ 31 →
          v = ((ext.glGenTextures gl % 2 ^ 32 : Nat) : Int)) ∧
        (2 ^ 31 ≤ ext.glGenTextures gl % 2 ^ 32 →
          v = ((ext.glGenTextures gl % 2 ^ 32 : Nat) : Int) - 2 ^ 32)) := by
  obtain ⟨r, hr, hcase⟩ := SceneManager.FindTextureID_loop_index s.m_textureIDs.val tag
    s.m_loadedTextures.toNat 0 (by have := s.toNat_le_length h; omega)
  refine ⟨⟨r, hr, ?_, ?_⟩, ?_⟩
  · intro hall
    rcases hcase with ⟨hr1, _⟩ | ⟨k, _, hkn, ⟨e, hke, hkt, _⟩, _⟩
    · exact hr1
    · exact absurd hkt (hall k (by omega) e hke)
  · intro i e hi hie het hmin
    rcases hcase with ⟨_, hall⟩ | ⟨k, _, hkn, ⟨e2, hke, hkt, hkr⟩, hbefore⟩
    · exact absurd het (hall i (Nat.zero_le _) (by omega) e hie)
    · have hik : i = k := by
        rcases Nat.lt_trichotomy i k with hlt | heq | hgt
        · exact absurd het (hbefore i (Nat.zero_le _) hlt e hie)
        · exact heq
        · exact absurd hkt (hmin k hgt e2 hke)
      subst hik
      rw [hie] at hke
      cases hke
      rw [hkr]
      exact GLuint_to_int_value e.ID
  · intro ext gl flip cout filename data hd h0 h16 hnew
    obtain ⟨w2, hw2, hid⟩ := SceneManager.FindTextureID_after_create ext ⟨s, gl, flip, cout⟩
      filename tag data hd h0 h16 hnew
    have hval := GLuint_to_int_value (ext.glGenTextures gl % 2 ^ 32)
    refine ⟨w2, _, hw2, hid, hval.1, ?_⟩
    intro hge
    exact hval.2.1 hge (Nat.mod_lt _ (by norm_num))

/-- The loads of `PrepareScene`, run on any list that fits under the capacity:
they all return, and the loaded tags grow by the tags of the files that decode,
in order. -/
theorem SceneManager.PrepareScene_loadTextures_spec (ext : Externals) :
    ∀ (l : List (String × String)) (w : World), 0 ≤ w.scene.m_loadedTextures →
      w.scene.m_loadedTextures + l.length ≤ 16 →
      ∃ w2, SceneManager.PrepareScene.loadTextures ext l w = some w2 ∧
        w2.scene.m_loadedTextures =
          w.scene.m_loadedTextures + ((SceneManager.PrepareScene.decoded ext l).length : Int) ∧
        w2.scene.loadedTags =
          w.scene.loadedTags ++ (SceneManager.PrepareScene.decoded ext l).map Prod.snd ∧
        w2.scene.m_pShaderManager = w.scene.m_pShaderManager ∧
        w2.scene.m_basicMeshes = w.scene.m_basicMeshes ∧
        w2.scene.m_objectMaterials = w.scene.m_objectMaterials := by
  intro l
  induction l with
  | nil =>
    intro w _ _
    exact ⟨w, rfl, by simp [SceneManager.PrepareScene.decoded], by
      simp [SceneManager.PrepareScene.decoded], rfl, rfl, rfl⟩
  | cons p l ih =>
    intro w h0 hcap
    obtain ⟨filename, tag⟩ := p
    have hcap2 : w.scene.m_loadedTextures + (l.length : Int) + 1 ≤ 16 := by
      simpa [add_assoc] using hcap
    cases hd : ext.stbi_load filename true with
    | none =>
      have hstep := SceneManager.CreateGLTexture_fail ext w filename tag hd
      obtain ⟨w2, hw2, hn, htags, hs, hm, ho⟩ := ih
        { w with
          stbi_flip_vertically_on_load := true
          cout := w.cout ++ ["Failed to load texture: " ++ filename] } h0 (by
            show w.scene.m_loadedTextures + (l.length : Int) ≤ 16
            omega)
      refine ⟨w2, by simp [SceneManager.PrepareScene.loadTextures, hstep, hw2], ?_, ?_, hs, hm, ho⟩
      · rw [hn]; simp [SceneManager.PrepareScene.decoded, Externals.decodes, hd]
      · rw [htags]; simp [SceneManager.PrepareScene.decoded, Externals.decodes, hd]
    | some data =>
      obtain ⟨w1, hw1, hn1, hl1, hs1, hm1, ho1⟩ :=
        SceneManager.CreateGLTexture_ok_loaded ext w filename tag data hd h0 (by omega)
      obtain ⟨w2, hw2, hn, htags, hs, hm, ho⟩ := ih w1 (by omega) (by omega)
      refine ⟨w2, by simp [SceneManager.PrepareScene.loadTextures, hw1, hw2], ?_, ?_,
        hs.trans hs1, hm.trans hm1, ho.trans ho1⟩
      · rw [hn, hn1]
        simp [SceneManager.PrepareScene.decoded, Externals.decodes, hd]
        omega
      · rw [htags]
        simp [SceneManager.loadedTags, hl1, SceneManager.PrepareScene.decoded,
          Externals.decodes, hd]

/-! ## Slot and handle of a present tag; `BindGLTextures` -/

/-- For a tag carried by some loaded entry, `FindTextureSlot` returns the first
such index and `FindTextureID` the converted handle stored there. -/
theorem SceneManager.slot_and_handle (s : SceneManager) (tag : String)
    (h : s.m_loadedTextures ≤ 16)
    (hpresent : ∃ (i : Nat) (e : TEXTURE_INFO), (i : Int) < s.m_loadedTextures ∧
      s.m_textureIDs.val[i]? = some e ∧ e.tag = tag) :
    ∃ (k : Nat) (e : TEXTURE_INFO), (k : Int) < s.m_loadedTextures ∧
      s.m_textureIDs.val[k]? = some e ∧ e.tag = tag ∧
      (∀ j : Nat, j < k → ∀ e2, s.m_textureIDs.val[j]? = some e2 → e2.tag ≠ tag) ∧
      s.FindTextureSlot tag = some (k : Int) ∧
      s.FindTextureID tag = some (GLuint_to_int e.ID) := by
  obtain ⟨i, e, hi, hie, het⟩ := hpresent
  have hlen := s.toNat_le_length h
  obtain ⟨r, hr, hcase⟩ := SceneManager.FindTextureSlot_loop_index s.m_textureIDs.val tag
    s.m_loadedTextures.toNat 0 (by omega)
  obtain ⟨r2, hr2, hcase2⟩ := SceneManager.FindTextureID_loop_index s.m_textureIDs.val tag
    s.m_loadedTextures.toNat 0 (by omega)
  rcases hcase with ⟨_, hall⟩ | ⟨k, hk, _, hkn, ⟨ek, hke, hkt⟩, hbefore⟩
  · exact absurd het (hall i (Nat.zero_le _) (by omega) e hie)
  · rcases hcase2 with ⟨_, hall2⟩ | ⟨k2, _, hkn2, ⟨ek2, hke2, hkt2, hkr2⟩, hbefore2⟩
    · exact absurd het (hall2 i (Nat.zero_le _) (by omega) e hie)
    · have hkk : k2 = k := by
        rcases Nat.lt_trichotomy k2 k with hlt | heq | hgt
        · exact absurd hkt2 (hbefore k2 (Nat.zero_le _) hlt ek2 hke2)
        · exact heq
        · exact absurd hkt (hbefore2 k (Nat.zero_le _) hgt ek hke)
      subst hkk
      rw [hke] at hke2
      cases hke2
      refine ⟨k2, ek, by omega, hke, hkt,
        fun j hj e2 hje => hbefore j (Nat.zero_le _) hj e2 hje, ?_, ?_⟩
      · rw [← hk]; exact hr
      · rw [← hkr2]; exact hr2

/-- The loop of `BindGLTextures`: it ends, binds entry `u` to unit `u` for every
index of its range, and leaves the other units and the texture objects alone. -/
theorem SceneManager.BindGLTextures_loop_spec (table : List TEXTURE_INFO) :
    ∀ (n i : Nat) (gl : GLState), i + n ≤ table.length →
      ∃ gl2, SceneManager.BindGLTextures.loop table n i gl = some gl2 ∧
        gl2.textures = gl.textures ∧
        (∀ (u : Nat) (e : TEXTURE_INFO), i ≤ u → u < i + n → table[u]? = some e →
          gl2.boundTexture2D u = e.ID) ∧
        (∀ u : Nat, (u < i ∨ i + n ≤ u) → gl2.boundTexture2D u = gl.boundTexture2D u) := by
  intro n
  induction n with
  | zero =>
    intro i gl _
    refine ⟨gl, rfl, rfl, ?_, fun _ _ => rfl⟩
    intro u e h1 h2; omega
  | succ n ih =>
    intro i gl hi
    have hlt : i < table.length := by omega
    have hget : table[i]? = some table[i] := List.getElem?_eq_getElem hlt
    obtain ⟨gl2, hgl2, htex, hin, hout⟩ :=
      ih (i + 1) (glBindTexture (glActiveTexture gl i) (table[i]).ID) (by omega)
    refine ⟨gl2, by simp [SceneManager.BindGLTextures.loop, hget, hgl2], ?_, ?_, ?_⟩
    · rw [htex]; rfl
    · intro u e h1 h2 hue
      by_cases hu : u = i
      · subst hu
        rw [hget] at hue
        cases hue
        rw [hout u (Or.inl (by omega))]
        simp [glBindTexture, glActiveTexture]
      · exact hin u e (by omega) (by omega) hue
    · intro u hu
      rw [hout u (by omega)]
      have hne : u ≠ i := by omega
      simp [glBindTexture, glActiveTexture, hne]

/-- Below capacity `BindGLTextures` returns and changes only the OpenGL state. -/
theorem SceneManager.BindGLTextures_spec (w : World) (h : w.scene.m_loadedTextures ≤ 16) :
    ∃ w2, SceneManager.BindGLTextures w = some w2 ∧ w2.scene = w.scene ∧
      w2.cout = w.cout ∧ w2.gl.textures = w.gl.textures ∧
      (∀ (u : Nat) (e : TEXTURE_INFO), (u : Int) < w.scene.m_loadedTextures →
        w.scene.m_textureIDs.val[u]? = some e → w2.gl.boundTexture2D u = e.ID) ∧
      (∀ u : Nat, w.scene.m_loadedTextures ≤ (u : Int) →
        w2.gl.boundTexture2D u = w.gl.boundTexture2D u) := by
  have hlen := w.scene.toNat_le_length h
  obtain ⟨gl2, hgl2, htex, hin, hout⟩ := SceneManager.BindGLTextures_loop_spec
    w.scene.m_textureIDs.val w.scene.m_loadedTextures.toNat 0 w.gl (by omega)
  refine ⟨{ w with gl := gl2 }, by simp [SceneManager.BindGLTextures, hgl2], rfl, rfl, htex, ?_, ?_⟩
  · intro u e hu hue
    exact hin u e (Nat.zero_le _) (by omega) hue
  · intro u hu
    exact hout u (Or.inr (by omega))

/-- In a list of pairs with distinct second components, filtering keeps a pair's
second component exactly when the pair passes, and then its position among the
survivors is the number of survivors before it. -/
theorem SceneManager.filter_snd_position (f : String × String → Bool) :
    ∀ (l : List (String × String)), (l.map Prod.snd).Nodup →
      ∀ (j : Nat) (p : String × String), l[j]? = some p →
        (p.2 ∈ (l.filter f).map Prod.snd ↔ f p = true) ∧
        (f p = true →
          ((l.filter f).map Prod.snd).indexOf p.2 = ((l.take j).filter f).length) := by
  intro l
  induction l with
  | nil => intro _ j p h; simp at h
  | cons a l ih =>
    intro hnd j p hj
    rw [List.map_cons, List.nodup_cons] at hnd
    obtain ⟨hna, hnd2⟩ := hnd
    have hsub : ∀ q, q ∈ (l.filter f).map Prod.snd → q ∈ l.map Prod.snd := by
      intro q hq
      obtain ⟨x, hx, hxq⟩ := List.mem_map.mp hq
      exact List.mem_map.mpr ⟨x, (List.mem_filter.mp hx).1, hxq⟩
    cases j with
    | zero =>
      simp only [List.getElem?_cons_zero, Option.some.injEq] at hj
      subst hj
      by_cases hf : f a = true
      · simp [List.filter_cons, hf]
      · have hnot : a.2 ∉ (l.filter f).map Prod.snd := fun hq => hna (hsub _ hq)
        simp [List.filter_cons, hf, hnot]
    | succ j =>
      simp only [List.getElem?_cons_succ] at hj
      obtain ⟨h1, h2⟩ := ih hnd2 j p hj
      have hpl : p.2 ∈ l.map Prod.snd :=
        List.mem_map.mpr ⟨p, List.getElem?_mem hj, rfl⟩
      have hne : a.2 ≠ p.2 := fun heq => hna (heq ▸ hpl)
      have hne2 : ¬ p.2 = a.2 := fun heq => hne heq.symm
      by_cases hf : f a = true
      · simp only [List.filter_cons, hf, if_true, List.map_cons, List.mem_cons, hne2, false_or,
          List.take_succ_cons, List.length_cons]
        refine ⟨h1, fun hp => ?_⟩
        rw [List.indexOf_cons_ne _ hne, h2 hp]
      · simp only [List.filter_cons, hf, if_false, List.take_succ_cons]
        exact ⟨h1, h2⟩

theorem SceneManager.PrepareScene_textures_length :
    SceneManager.PrepareScene.textures.length = 6 := rfl

theorem SceneManager.PrepareScene_textures_tags_nodup :
    (SceneManager.PrepareScene.textures.map Prod.snd).Nodup := by
  decide

theorem SceneManager.PrepareScene_decoded_length_le (ext : Externals)
    (l : List (String × String)) :
    (SceneManager.PrepareScene.decoded ext l).length ≤ l.length :=
  List.length_filter_le _ _

/-- The loads of a list run as the loads of a first part followed by the loads
of the rest: the world after the first part is an intermediate world of the run. -/
theorem SceneManager.PrepareScene_loadTextures_take_drop (ext : Externals) (k : Nat) :
    ∀ (l : List (String × String)) (w wk : World),
      SceneManager.PrepareScene.loadTextures ext (l.take k) w = some wk →
      SceneManager.PrepareScene.loadTextures ext l w =
        SceneManager.PrepareScene.loadTextures ext (l.drop k) wk := by
  induction k with
  | zero =>
    intro l w wk h
    simp only [List.take_zero, SceneManager.PrepareScene.loadTextures, Option.some.injEq] at h
    subst h
    rfl
  | succ k ih =>
    intro l w wk h
    cases l with
    | nil =>
      simp only [List.take_nil, SceneManager.PrepareScene.loadTextures, Option.some.injEq] at h
      subst h
      rfl
    | cons p l =>
      obtain ⟨filename, tag⟩ := p
      simp only [List.take_succ_cons, SceneManager.PrepareScene.loadTextures] at h
      simp only [List.drop_succ_cons, SceneManager.PrepareScene.loadTextures]
      cases hc : SceneManager.CreateGLTexture ext w filename tag with
      | none => simp [hc] at h
      | some r =>
        obtain ⟨b, w1⟩ := r
        simp only [hc] at h
        exact ih l w1 wk h

/-- C5. The fixed call sequence, constructor then `PrepareScene` once, for any
decoder answers, handles and starting OpenGL state.  After each of the six loads
(`k` of them done, the rest of the run continuing from there) the run has a
result, so every write landed inside the array, and `m_loadedTextures` is the
number of decodes that succeeded so far, at most `k` and at most 6.  `PrepareScene` as a whole returns with `m_loadedTextures`
equal to the number of successful decodes, which is 6 minus the number of failed
ones and below the capacity 16; the loaded tags are the tags of the decoded files
in call order, so each tag of a decoded file sits in the slot numbered by the
successful decodes before it and the tag of a failed file has no slot. -/
theorem PrepareScene_table_within_capacity (ext : Externals)
    (pShaderManager : Option ShaderManager) (gl : GLState) (flip : Bool) (cout : List String) :
    (∀ k : Nat, ∃ w,
      SceneManager.PrepareScene.loadTextures ext (SceneManager.PrepareScene.textures.take k)
        (SceneManager.PrepareScene.loadMeshes ⟨SceneManager.ctor pShaderManager, gl, flip, cout⟩)
          = some w ∧
      SceneManager.PrepareScene.loadTextures ext SceneManager.PrepareScene.textures
        (SceneManager.PrepareScene.loadMeshes ⟨SceneManager.ctor pShaderManager, gl, flip, cout⟩)
          = SceneManager.PrepareScene.loadTextures ext
              (SceneManager.PrepareScene.textures.drop k) w ∧
      w.scene.m_loadedTextures =
        ((SceneManager.PrepareScene.decoded ext
          (SceneManager.PrepareScene.textures.take k)).length : Int) ∧
      w.scene.m_loadedTextures ≤ (k : Int) ∧ w.scene.m_loadedTextures ≤ 6 ∧
      w.scene.loadedTags =
        (SceneManager.PrepareScene.decoded ext
          (SceneManager.PrepareScene.textures.take k)).map Prod.snd) ∧
    ∃ w, SceneManager.PrepareScene ext ⟨SceneManager.ctor pShaderManager, gl, flip, cout⟩
        = some w ∧
      w.scene.m_loadedTextures =
        ((SceneManager.PrepareScene.decoded ext SceneManager.PrepareScene.textures).length : Int) ∧
      w.scene.m_loadedTextures +
        ((SceneManager.PrepareScene.textures.filter (fun p => !ext.decodes p.1)).length : Int)
          = 6 ∧
      w.scene.m_loadedTextures ≤ 6 ∧ w.scene.m_loadedTextures < 16 ∧
      w.scene.loadedTags =
        (SceneManager.PrepareScene.decoded ext SceneManager.PrepareScene.textures).map Prod.snd ∧
      ∀ (j : Nat) (p : String × String), SceneManager.PrepareScene.textures[j]? = some p →
        w.scene.FindTextureSlot p.2 =
          some (if ext.decodes p.1 then
            ((SceneManager.PrepareScene.decoded ext
              (SceneManager.PrepareScene.textures.take j)).length : Int)
            else -1) := by
  have hfresh0 : (SceneManager.PrepareScene.loadMeshes
      ⟨SceneManager.ctor pShaderManager, gl, flip, cout⟩).scene.m_loadedTextures = 0 := rfl
  have hfreshTags : (SceneManager.PrepareScene.loadMeshes
      ⟨SceneManager.ctor pShaderManager, gl, flip, cout⟩).scene.loadedTags = [] := by
    simp [SceneManager.loadedTags, SceneManager.loaded, hfresh0]
  constructor
  · intro k
    have hlen : (SceneManager.PrepareScene.textures.take k).length ≤ 6 := by
      rw [List.length_take, SceneManager.PrepareScene_textures_length]; omega
    have hlenk : (SceneManager.PrepareScene.textures.take k).length ≤ k := by
      rw [List.length_take]; omega
    have hdec := SceneManager.PrepareScene_decoded_length_le ext
      (SceneManager.PrepareScene.textures.take k)
    obtain ⟨w, hw, hn, htags, _⟩ := SceneManager.PrepareScene_loadTextures_spec ext
      (SceneManager.PrepareScene.textures.take k)
      (SceneManager.PrepareScene.loadMeshes ⟨SceneManager.ctor pShaderManager, gl, flip, cout⟩)
      (by rw [hfresh0]) (by rw [hfresh0]; omega)
    rw [hfresh0, zero_add] at hn
    rw [hfreshTags, List.nil_append] at htags
    exact ⟨w, hw, SceneManager.PrepareScene_loadTextures_take_drop ext k _ _ w hw, hn, by omega,
      by omega, htags⟩
  · have hdec := SceneManager.PrepareScene_decoded_length_le ext SceneManager.PrepareScene.textures
    rw [SceneManager.PrepareScene_textures_length] at hdec
    obtain ⟨w, hw, hn, htags, _⟩ := SceneManager.PrepareScene_loadTextures_spec ext
      SceneManager.PrepareScene.textures
      (SceneManager.PrepareScene.loadMeshes ⟨SceneManager.ctor pShaderManager, gl, flip, cout⟩)
      (by rw [hfresh0]) (by rw [hfresh0, SceneManager.PrepareScene_textures_length]; omega)
    rw [hfresh0, zero_add] at hn
    rw [hfreshTags, List.nil_append] at htags
    have hw16 : w.scene.m_loadedTextures ≤ 16 := by omega
    obtain ⟨w2, hw2, hscene, _⟩ := SceneManager.BindGLTextures_spec w hw16
    have hsplit := @List.length_eq_length_filter_add _ SceneManager.PrepareScene.textures
      (fun p => ext.decodes p.1)
    rw [SceneManager.PrepareScene_textures_length] at hsplit
    refine ⟨{ w2 with
        scene :=
          { w2.scene with
            m_objectMaterials :=
              w2.scene.m_objectMaterials ++ [SceneManager.PrepareScene.defaultMat] } },
      by simp [SceneManager.PrepareScene, hw, hw2], ?_, ?_, ?_, ?_, ?_, ?_⟩
    · show w2.scene.m_loadedTextures = _
      rw [hscene]; exact hn
    · show w2.scene.m_loadedTextures + _ = 6
      rw [hscene, hn]
      have : (SceneManager.PrepareScene.decoded ext SceneManager.PrepareScene.textures).length =
          (SceneManager.PrepareScene.textures.filter (fun p => ext.decodes p.1)).length := rfl
      omega
    · show w2.scene.m_loadedTextures ≤ 6
      rw [hscene]; omega
    · show w2.scene.m_loadedTextures < 16
      rw [hscene]; omega
    · show SceneManager.loadedTags
        { w2.scene with
          m_objectMaterials :=
            w2.scene.m_objectMaterials ++ [SceneManager.PrepareScene.defaultMat] } = _
      rw [← htags, ← hscene]
      rfl
    · intro j p hj
      have hpos := SceneManager.filter_snd_position (fun p => ext.decodes p.1)
        SceneManager.PrepareScene.textures SceneManager.PrepareScene_textures_tags_nodup j p hj
      have hEq := SceneManager.FindTextureSlot_eq
        { w2.scene with
          m_objectMaterials :=
            w2.scene.m_objectMaterials ++ [SceneManager.PrepareScene.defaultMat] } p.2
        (by show w2.scene.m_loadedTextures ≤ 16
            rw [hscene]; exact hw16)
      have htags2 : SceneManager.loadedTags
          { w2.scene with
            m_objectMaterials :=
              w2.scene.m_objectMaterials ++ [SceneManager.PrepareScene.defaultMat] } =
          (SceneManager.PrepareScene.decoded ext SceneManager.PrepareScene.textures).map
            Prod.snd := by
        rw [← htags, ← hscene]
        rfl
      rw [hEq, htags2]
      by_cases hd : ext.decodes p.1 = true
      · have hmem : p.2 ∈ (SceneManager.PrepareScene.decoded ext
            SceneManager.PrepareScene.textures).map Prod.snd := hpos.1.mpr hd
        have hidx := hpos.2 hd
        simp only [hmem, hd, if_true]
        congr 2
      · have hmem : p.2 ∉ (SceneManager.PrepareScene.decoded ext
            SceneManager.PrepareScene.textures).map Prod.snd := fun hq => hd (hpos.1.mp hq)
        simp only [hmem, hd, if_false]
        rfl

/-! ## Tag uniqueness -/

/-- Whatever `CreateGLTexture` returns, the loaded tags are the old ones, with the
new tag appended when the decode succeeded. -/
theorem SceneManager.CreateGLTexture_loadedTags (ext : Externals) (w : World)
    (filename tag : String) (b : Bool) (w2 : World)
    (h : SceneManager.CreateGLTexture ext w filename tag = some (b, w2)) :
    w2.scene.loadedTags = w.scene.loadedTags ++ (if b then [tag] else []) ∧
    w.scene.m_loadedTextures ≤ w2.scene.m_loadedTextures := by
  cases hd : ext.stbi_load filename true with
  | none =>
    rw [SceneManager.CreateGLTexture_fail ext w filename tag hd] at h
    simp only [Option.some.injEq, Prod.mk.injEq] at h
    obtain ⟨hb, hw⟩ := h
    subst hb; subst hw
    simp [SceneManager.loadedTags, SceneManager.loaded]
  | some data =>
    by_cases hb : 0 ≤ w.scene.m_loadedTextures ∧ w.scene.m_loadedTextures < 16
    · obtain ⟨w3, hw3, hn, hl, _⟩ :=
        SceneManager.CreateGLTexture_ok_loaded ext w filename tag data hd hb.1 hb.2
      rw [hw3] at h
      simp only [Option.some.injEq, Prod.mk.injEq] at h
      obtain ⟨hb2, hw⟩ := h
      subst hb2; subst hw
      simp [SceneManager.loadedTags, hl, hn]
    · simp [SceneManager.CreateGLTexture, hd, hb] at h

/-- Whatever the loads of `PrepareScene` return, the loaded tags are the old ones
followed by tags taken, in order and without repetition of a position, from the
list. -/
theorem SceneManager.PrepareScene_loadTextures_loadedTags (ext : Externals) :
    ∀ (l : List (String × String)) (w w2 : World),
      SceneManager.PrepareScene.loadTextures ext l w = some w2 →
      (∃ added : List String, added.Sublist (l.map Prod.snd) ∧
        w2.scene.loadedTags = w.scene.loadedTags ++ added) ∧
      w.scene.m_loadedTextures ≤ w2.scene.m_loadedTextures := by
  intro l
  induction l with
  | nil =>
    intro w w2 h
    simp only [SceneManager.PrepareScene.loadTextures, Option.some.injEq] at h
    subst h
    exact ⟨⟨[], List.Sublist.refl _, by simp⟩, le_refl _⟩
  | cons p l ih =>
    intro w w2 h
    obtain ⟨filename, tag⟩ := p
    cases hc : SceneManager.CreateGLTexture ext w filename tag with
    | none => simp [SceneManager.PrepareScene.loadTextures, hc] at h
    | some r =>
      obtain ⟨b, w1⟩ := r
      simp only [SceneManager.PrepareScene.loadTextures, hc] at h
      obtain ⟨⟨added, hsub, htags⟩, hle⟩ := ih w1 w2 h
      obtain ⟨h1, hle1⟩ := SceneManager.CreateGLTexture_loadedTags ext w filename tag b w1 hc
      refine ⟨⟨(if b then [tag] else []) ++ added, ?_, by rw [htags, h1, List.append_assoc]⟩,
        le_trans hle1 hle⟩
      cases b
      · simpa using List.Sublist.cons tag hsub
      · simpa using List.Sublist.cons₂ tag hsub

theorem SceneManager.BindGLTextures_scene (w w2 : World)
    (h : SceneManager.BindGLTextures w = some w2) : w2.scene = w.scene := by
  unfold SceneManager.BindGLTextures at h
  split at h
  · cases h
  · simp only [Option.some.injEq] at h
    subst h
    rfl

theorem SceneManager.DestroyGLTextures_loaded (w w2 : World)
    (h : SceneManager.DestroyGLTextures w = some w2) : w2.scene.m_loadedTextures = 0 := by
  unfold SceneManager.DestroyGLTextures at h
  split at h
  · cases h
  · simp only [Option.some.injEq] at h
    subst h
    rfl

/-- Whatever `PrepareScene` returns, the loaded tags are the old ones followed by
some of its six tags, in order. -/
theorem SceneManager.PrepareScene_loadedTags (ext : Externals) (w w2 : World)
    (h : SceneManager.PrepareScene ext w = some w2) :
    (∃ added : List String,
      added.Sublist (SceneManager.PrepareScene.textures.map Prod.snd) ∧
      w2.scene.loadedTags = w.scene.loadedTags ++ added) ∧
    w.scene.m_loadedTextures ≤ w2.scene.m_loadedTextures := by
  unfold SceneManager.PrepareScene at h
  simp only at h
  split at h
  · cases h
  · rename_i w1 hw1
    split at h
    · cases h
    · rename_i w3 hw3
      simp only [Option.some.injEq] at h
      subst h
      have hs := SceneManager.BindGLTextures_scene w1 w3 hw3
      obtain ⟨⟨added, hsub, htags⟩, hle⟩ :=
        SceneManager.PrepareScene_loadTextures_loadedTags ext _ _ w1 hw1
      refine ⟨⟨added, hsub, ?_⟩, ?_⟩
      · show SceneManager.loadedTags
          { w3.scene with
            m_objectMaterials :=
              w3.scene.m_objectMaterials ++ [SceneManager.PrepareScene.defaultMat] } = _
        have : SceneManager.loadedTags
          { w3.scene with
            m_objectMaterials :=
              w3.scene.m_objectMaterials ++ [SceneManager.PrepareScene.defaultMat] } =
            w3.scene.loadedTags := rfl
        rw [this, hs, htags]
        rfl
      · show w.scene.m_loadedTextures ≤ w3.scene.m_loadedTextures
        rw [hs]
        exact hle

/-- C6, as amended. In every world reached from a freshly constructed
`SceneManager` by `CreateGLTexture`, `PrepareScene`, `BindGLTextures` and
`DestroyGLTextures` calls in which no call registers a tag that a loaded entry
already carries, no two loaded entries carry the same tag. -/
theorem loaded_tags_unique_when_tags_new (w : World)
    (h : SceneManager.Reachable Call.registersNewTags w) : w.scene.loadedTags.Nodup := by
  induction h with
  | fresh pShaderManager gl flip cout =>
    simp [SceneManager.loadedTags, SceneManager.loaded, SceneManager.ctor]
  | call ext c w w2 _ hguard hrun ih =>
    cases c with
    | CreateGLTexture filename tag =>
      simp only [Call.run] at hrun
      cases hc : SceneManager.CreateGLTexture ext w filename tag with
      | none => simp [hc] at hrun
      | some r =>
        obtain ⟨b, w3⟩ := r
        simp only [hc, Option.some.injEq] at hrun
        subst hrun
        obtain ⟨htags, _⟩ := SceneManager.CreateGLTexture_loadedTags ext w filename tag b w3 hc
        rw [htags]
        cases b
        · simpa using ih
        · have hnew : tag ∉ w.scene.loadedTags := hguard
          simp only [if_true]
          exact List.Nodup.append ih (List.nodup_singleton tag) (by
            intro x hx hx2
            rw [List.mem_singleton] at hx2
            subst hx2
            exact hnew hx)
    | PrepareScene =>
      obtain ⟨⟨added, hsub, htags⟩, _⟩ := SceneManager.PrepareScene_loadedTags ext w w2 hrun
      rw [htags]
      refine List.Nodup.append ih
        (List.Nodup.sublist hsub SceneManager.PrepareScene_textures_tags_nodup) ?_
      intro x hx hx2
      obtain ⟨p, hp, hpx⟩ := List.mem_map.mp (hsub.subset hx2)
      have hnew : p.2 ∉ w.scene.loadedTags := hguard p hp
      rw [hpx] at hnew
      exact hnew hx
    | BindGLTextures =>
      rw [SceneManager.BindGLTextures_scene w w2 hrun]
      exact ih
    | DestroyGLTextures =>
      have h0 := SceneManager.DestroyGLTextures_loaded w w2 hrun
      simp [SceneManager.loadedTags, SceneManager.loaded, h0]

/-- From any world with room for six more entries, `PrepareScene` returns: the
loaded tags grow by the tags of the decoded files and the material list by
the default material. -/
theorem SceneManager.PrepareScene_spec (ext : Externals) (w : World)
    (h0 : 0 ≤ w.scene.m_loadedTextures) (h10 : w.scene.m_loadedTextures ≤ 10) :
    ∃ w2, SceneManager.PrepareScene ext w = some w2 ∧
      w2.scene.m_loadedTextures = w.scene.m_loadedTextures +
        ((SceneManager.PrepareScene.decoded ext SceneManager.PrepareScene.textures).length : Int) ∧
      w2.scene.loadedTags = w.scene.loadedTags ++
        (SceneManager.PrepareScene.decoded ext SceneManager.PrepareScene.textures).map Prod.snd ∧
      w2.scene.m_objectMaterials =
        w.scene.m_objectMaterials ++ [SceneManager.PrepareScene.defaultMat] ∧
      w2.scene.m_pShaderManager = w.scene.m_pShaderManager := by
  have hdec := SceneManager.PrepareScene_decoded_length_le ext SceneManager.PrepareScene.textures
  rw [SceneManager.PrepareScene_textures_length] at hdec
  obtain ⟨w1, hw1, hn, htags, hs, _, ho⟩ := SceneManager.PrepareScene_loadTextures_spec ext
    SceneManager.PrepareScene.textures (SceneManager.PrepareScene.loadMeshes w) h0 (by
      show w.scene.m_loadedTextures + _ ≤ 16
      rw [SceneManager.PrepareScene_textures_length]; omega)
  have hn2 : w1.scene.m_loadedTextures = w.scene.m_loadedTextures +
      ((SceneManager.PrepareScene.decoded ext SceneManager.PrepareScene.textures).length : Int) :=
    hn
  obtain ⟨w2, hw2, hscene, _⟩ := SceneManager.BindGLTextures_spec w1 (by omega)
  refine ⟨{ w2 with
      scene :=
        { w2.scene with
          m_objectMaterials :=
            w2.scene.m_objectMaterials ++ [SceneManager.PrepareScene.defaultMat] } },
    by simp [SceneManager.PrepareScene, hw1, hw2], ?_, ?_, ?_, ?_⟩
  · show w2.scene.m_loadedTextures = _
    rw [hscene]; exact hn2
  · show SceneManager.loadedTags w2.scene = _
    rw [hscene]; exact htags
  · show w2.scene.m_objectMaterials ++ [SceneManager.PrepareScene.defaultMat] = _
    rw [hscene, ho]
    rfl
  · show w2.scene.m_pShaderManager = _
    rw [hscene, hs]
    rfl

theorem preparedWorld_run :
    Call.run flakyExt (freshWorld (some ⟨[]⟩)) Call.PrepareScene = some preparedWorld := by
  obtain ⟨w2, hw2, _⟩ := SceneManager.PrepareScene_spec flakyExt (freshWorld (some ⟨[]⟩))
    (by decide) (by decide)
  simp [Call.run, preparedWorld, hw2]

/-- C6, amended, at a concrete reachable world: the constructor, then one
`PrepareScene` in which two of the six files fail to decode. -/
theorem loaded_tags_unique_when_tags_new_witness :
    SceneManager.Reachable Call.registersNewTags preparedWorld ∧
    preparedWorld.scene.loadedTags.Nodup :=
  have hr : SceneManager.Reachable Call.registersNewTags preparedWorld :=
    SceneManager.Reachable.call flakyExt Call.PrepareScene (freshWorld (some ⟨[]⟩)) preparedWorld
      (SceneManager.Reachable.fresh (some ⟨[]⟩) freshGL false [])
      (by intro p _; simp [freshWorld, SceneManager.loadedTags, SceneManager.loaded,
            SceneManager.ctor])
      preparedWorld_run
  ⟨hr, loaded_tags_unique_when_tags_new preparedWorld hr⟩

/-- C6 as stated fails: nothing stops a second registration of a tag.  From a
fresh object, two successful `CreateGLTexture` calls with the tag `wood` leave
slots 0 and 1 both tagged `wood`; so not every reachable world has distinct
loaded tags. -/
theorem loaded_tags_unique_counterexample :
    ∃ w1 w2,
      Call.run sampleExt (freshWorld none) (Call.CreateGLTexture "textures/a.jpg" "wood")
        = some w1 ∧
      Call.run sampleExt w1 (Call.CreateGLTexture "textures/b.jpg" "wood") = some w2 ∧
      SceneManager.Reachable (fun _ _ => True) w2 ∧
      w2.scene.m_loadedTextures = 2 ∧
      w2.scene.loadedTags = ["wood", "wood"] ∧
      ¬ w2.scene.loadedTags.Nodup := by
  obtain ⟨w1, hw1, hn1, hl1, _⟩ := SceneManager.CreateGLTexture_ok_loaded sampleExt
    (freshWorld none) "textures/a.jpg" "wood" sampleImage rfl (by decide) (by decide)
  have hn1b : w1.scene.m_loadedTextures = 1 := by rw [hn1]; rfl
  obtain ⟨w2, hw2, hn2, hl2, _⟩ := SceneManager.CreateGLTexture_ok_loaded sampleExt
    w1 "textures/b.jpg" "wood" sampleImage rfl (by omega) (by omega)
  have hrun1 : Call.run sampleExt (freshWorld none)
      (Call.CreateGLTexture "textures/a.jpg" "wood") = some w1 := by
    simp [Call.run, hw1]
  have hrun2 : Call.run sampleExt w1 (Call.CreateGLTexture "textures/b.jpg" "wood")
      = some w2 := by
    simp [Call.run, hw2]
  have htags : w2.scene.loadedTags = ["wood", "wood"] := by
    have hfresh : (freshWorld none).scene.loaded = [] := by
      simp [freshWorld, SceneManager.loaded, SceneManager.ctor]
    simp [SceneManager.loadedTags, hl2, hl1, hfresh]
  refine ⟨w1, w2, hrun1, hrun2, ?_, by omega, htags, by rw [htags]; decide⟩
  exact SceneManager.Reachable.call sampleExt _ w1 w2
    (SceneManager.Reachable.call sampleExt _ (freshWorld none) w1
      (SceneManager.Reachable.fresh none freshGL false []) trivial hrun1) trivial hrun2

/-! ## Append-only -/

/-- Appending an entry to the loaded entries keeps the slot and the handle of
every tag that was already loaded. -/
theorem SceneManager.lookups_after_append (s s2 : SceneManager) (x : TEXTURE_INFO)
    (h16 : s2.m_loadedTextures ≤ 16) (hs : s.m_loadedTextures ≤ 16)
    (hl : s2.loaded = s.loaded ++ [x]) (tag : String) (hmem : tag ∈ s.loadedTags) :
    s2.FindTextureSlot tag = s.FindTextureSlot tag ∧
    s2.FindTextureID tag = s.FindTextureID tag := by
  rw [SceneManager.FindTextureSlot_eq s2 tag h16, SceneManager.FindTextureSlot_eq s tag hs,
    SceneManager.FindTextureID_eq s2 tag h16, SceneManager.FindTextureID_eq s tag hs]
  have htags : s2.loadedTags = s.loadedTags ++ [x.tag] := by
    simp [SceneManager.loadedTags, hl]
  constructor
  · rw [htags, List.indexOf_append_of_mem hmem]
    simp [hmem]
  · rw [hl, List.find?_append]
    obtain ⟨e, he, het⟩ := List.mem_map.mp hmem
    cases hf : s.loaded.find? (fun e => decide (e.tag = tag)) with
    | none =>
      rw [List.find?_eq_none] at hf
      exact absurd (by simpa using het) (hf e he)
    | some e2 => simp

/-- A tag is among the loaded tags exactly when an entry at an index below
`m_loadedTextures` carries it. -/
theorem SceneManager.mem_loadedTags_iff (s : SceneManager) (tag : String) :
    tag ∈ s.loadedTags ↔
      ∃ (i : Nat) (e : TEXTURE_INFO), (i : Int) < s.m_loadedTextures ∧
        s.m_textureIDs.val[i]? = some e ∧ e.tag = tag := by
  unfold SceneManager.loadedTags SceneManager.loaded
  rw [List.mem_map]
  constructor
  · rintro ⟨e, he, het⟩
    obtain ⟨i, hi⟩ := List.mem_iff_getElem?.mp he
    rw [List.getElem?_take] at hi
    by_cases hlt : i < s.m_loadedTextures.toNat
    · rw [if_pos hlt] at hi
      exact ⟨i, e, by omega, hi, het⟩
    · rw [if_neg hlt] at hi
      cases hi
  · rintro ⟨i, e, hi, hie, het⟩
    have hlt : i < s.m_loadedTextures.toNat := by omega
    refine ⟨e, List.mem_iff_getElem?.mpr ⟨i, ?_⟩, het⟩
    rw [List.getElem?_take, if_pos hlt]
    exact hie

/-- Materials pushed behind a list do not change what `FindMaterial` finds for a
tag the list already has. -/
theorem SceneManager.FindMaterial_loop_append (tag : String) (material : OBJECT_MATERIAL)
    (extra : List OBJECT_MATERIAL) :
    ∀ l : List OBJECT_MATERIAL, (∃ m ∈ l, m.tag = tag) →
      SceneManager.FindMaterial.loop tag material (l ++ extra) =
        SceneManager.FindMaterial.loop tag material l := by
  intro l
  induction l with
  | nil => rintro ⟨m, hm, _⟩; cases hm
  | cons a l ih =>
    rintro ⟨m, hm, hmt⟩
    by_cases ha : a.tag = tag
    · simp [SceneManager.FindMaterial.loop, ha]
    · rcases List.mem_cons.mp hm with rfl | hm2
      · exact absurd hmt ha
      · simp only [List.cons_append, SceneManager.FindMaterial.loop, ha, if_false]
        exact ih ⟨m, hm2, hmt⟩

/-- Whatever `CreateGLTexture` returns, materials, shader manager and meshes of
the object are untouched. -/
theorem SceneManager.CreateGLTexture_frame (ext : Externals) (w : World)
    (filename tag : String) (b : Bool) (w2 : World)
    (h : SceneManager.CreateGLTexture ext w filename tag = some (b, w2)) :
    w2.scene.m_objectMaterials = w.scene.m_objectMaterials ∧
    w2.scene.m_pShaderManager = w.scene.m_pShaderManager ∧
    w2.scene.m_basicMeshes = w.scene.m_basicMeshes := by
  cases hd : ext.stbi_load filename true with
  | none =>
    rw [SceneManager.CreateGLTexture_fail ext w filename tag hd] at h
    simp only [Option.some.injEq, Prod.mk.injEq] at h
    obtain ⟨_, hw⟩ := h
    subst hw
    exact ⟨rfl, rfl, rfl⟩
  | some data =>
    by_cases hb : 0 ≤ w.scene.m_loadedTextures ∧ w.scene.m_loadedTextures < 16
    · obtain ⟨w3, hw3, _, _, hs, hm, ho, _⟩ :=
        SceneManager.CreateGLTexture_ok ext w filename tag data hd hb.1 hb.2
      rw [hw3] at h
      simp only [Option.some.injEq, Prod.mk.injEq] at h
      obtain ⟨_, hw⟩ := h
      subst hw
      exact ⟨ho, hs, hm⟩
    · simp [SceneManager.CreateGLTexture, hd, hb] at h

theorem SceneManager.PrepareScene_loadTextures_frame (ext : Externals) :
    ∀ (l : List (String × String)) (w w2 : World),
      SceneManager.PrepareScene.loadTextures ext l w = some w2 →
      w2.scene.m_objectMaterials = w.scene.m_objectMaterials ∧
      w2.scene.m_pShaderManager = w.scene.m_pShaderManager := by
  intro l
  induction l with
  | nil =>
    intro w w2 h
    simp only [SceneManager.PrepareScene.loadTextures, Option.some.injEq] at h
    subst h
    exact ⟨rfl, rfl⟩
  | cons p l ih =>
    intro w w2 h
    obtain ⟨filename, tag⟩ := p
    cases hc : SceneManager.CreateGLTexture ext w filename tag with
    | none => simp [SceneManager.PrepareScene.loadTextures, hc] at h
    | some r =>
      obtain ⟨b, w1⟩ := r
      simp only [SceneManager.PrepareScene.loadTextures, hc] at h
      obtain ⟨h1, h2⟩ := ih w1 w2 h
      obtain ⟨g1, g2, _⟩ := SceneManager.CreateGLTexture_frame ext w filename tag b w1 hc
      exact ⟨h1.trans g1, h2.trans g2⟩

/-- Whatever `PrepareScene` returns, the material list is the old one with
the default material pushed behind it, and the shader manager is untouched. -/
theorem SceneManager.PrepareScene_materials (ext : Externals) (w w2 : World)
    (h : SceneManager.PrepareScene ext w = some w2) :
    w2.scene.m_objectMaterials =
      w.scene.m_objectMaterials ++ [SceneManager.PrepareScene.defaultMat] ∧
    w2.scene.m_pShaderManager = w.scene.m_pShaderManager := by
  unfold SceneManager.PrepareScene at h
  simp only at h
  split at h
  · cases h
  · rename_i w1 hw1
    split at h
    · cases h
    · rename_i w3 hw3
      simp only [Option.some.injEq] at h
      subst h
      have hs := SceneManager.BindGLTextures_scene w1 w3 hw3
      obtain ⟨h1, h2⟩ := SceneManager.PrepareScene_loadTextures_frame ext _ _ w1 hw1
      constructor
      · show w3.scene.m_objectMaterials ++ [SceneManager.PrepareScene.defaultMat] = _
        rw [hs, h1]
        rfl
      · show w3.scene.m_pShaderManager = _
        rw [hs, h2]
        rfl

/-! ## `SetShaderTexture` -/

/-- Within capacity `SetShaderTexture` returns; it changes the object only when
the shader manager is there and the tag is loaded, and then by exactly two
uniform writes. -/
theorem SceneManager.SetShaderTexture_eq (s : SceneManager) (textureTag : String)
    (h : s.m_loadedTextures ≤ 16) :
    s.SetShaderTexture textureTag =
      some (match s.m_pShaderManager with
        | none => s
        | some sh =>
          if textureTag ∈ s.loadedTags then
            { s with
              m_pShaderManager :=
                some ⟨sh.uniforms ++
                  [("bUseTexture", UniformValue.int 1),
                    ("objectTexture",
                      UniformValue.sampler2D ((s.loadedTags.indexOf textureTag : Nat) : Int))]⟩ }
          else s) := by
  unfold SceneManager.SetShaderTexture
  rw [SceneManager.FindTextureSlot_eq s textureTag h]
  cases hsh : s.m_pShaderManager with
  | none => rfl
  | some sh =>
    by_cases hmem : textureTag ∈ s.loadedTags
    · simp [hmem, ShaderManager.setIntValue, ShaderManager.setSampler2DValue, g_UseTextureName,
        g_TextureValueName]
    · simp [hmem]

/-- C9. `SetShaderTexture` on a table within capacity: the call returns and leaves
the texture table and `m_loadedTextures` as they were.  With a tag that no loaded
entry carries it writes no uniform: the object, shader manager included, is the
same after the call.  With a loaded tag and a shader manager it appends exactly
two writes to what the shader manager had received, `bUseTexture` set to 1 (true)
and then `objectTexture` set to the value of `FindTextureSlot` for the tag.
Without a shader manager it does nothing. -/
theorem SetShaderTexture_uniform_writes (s : SceneManager) (textureTag : String)
    (h : s.m_loadedTextures ≤ 16) :
    ∃ s2, s.SetShaderTexture textureTag = some s2 ∧
      s2.m_textureIDs = s.m_textureIDs ∧ s2.m_loadedTextures = s.m_loadedTextures ∧
      (textureTag ∉ s.loadedTags → s2 = s ∧ s2.m_pShaderManager = s.m_pShaderManager) ∧
      (textureTag ∈ s.loadedTags → ∀ sh, s.m_pShaderManager = some sh →
        ∃ slot : Int, s.FindTextureSlot textureTag = some slot ∧ 0 ≤ slot ∧
          s2.m_pShaderManager =
            some ⟨sh.uniforms ++
              [("bUseTexture", UniformValue.int 1),
                ("objectTexture", UniformValue.sampler2D slot)]⟩) ∧
      (s.m_pShaderManager = none → s2 = s) := by
  refine ⟨_, SceneManager.SetShaderTexture_eq s textureTag h, ?_, ?_, ?_, ?_, ?_⟩
  · cases hsh : s.m_pShaderManager with
    | none => rfl
    | some sh => by_cases hmem : textureTag ∈ s.loadedTags <;> simp [hmem]
  · cases hsh : s.m_pShaderManager with
    | none => rfl
    | some sh => by_cases hmem : textureTag ∈ s.loadedTags <;> simp [hmem]
  · intro hmem
    cases hsh : s.m_pShaderManager with
    | none => simp [hsh]
    | some sh => simp [hmem, hsh]
  · intro hmem sh hsh
    refine ⟨((s.loadedTags.indexOf textureTag : Nat) : Int), ?_, by omega, ?_⟩
    · rw [SceneManager.FindTextureSlot_eq s textureTag h, if_pos hmem]
    · simp [hsh, hmem]
  · intro hsh
    simp [hsh]

theorem SceneManager.SetShaderTexture_loaded (s s2 : SceneManager) (textureTag : String)
    (h : s.SetShaderTexture textureTag = some s2) :
    s2.m_loadedTextures = s.m_loadedTextures ∧ s2.m_textureIDs = s.m_textureIDs ∧
    s2.m_objectMaterials = s.m_objectMaterials := by
  unfold SceneManager.SetShaderTexture at h
  split at h
  · simp only [Option.some.injEq] at h
    subst h
    exact ⟨rfl, rfl, rfl⟩
  · split at h
    · cases h
    · split at h <;>
      · simp only [Option.some.injEq] at h
        subst h
        exact ⟨rfl, rfl, rfl⟩

theorem SceneManager.SetShaderColor_loaded (s : SceneManager) (r g b a : float) :
    (s.SetShaderColor r g b a).m_loadedTextures = s.m_loadedTextures := by
  unfold SceneManager.SetShaderColor
  split <;> rfl

theorem SceneManager.SetTransformations_loaded (glm : GLM) (s : SceneManager) (scaleXYZ : vec3)
    (x y z : float) (positionXYZ : vec3) :
    (s.SetTransformations glm scaleXYZ x y z positionXYZ).m_loadedTextures =
      s.m_loadedTextures := by
  unfold SceneManager.SetTransformations
  simp only
  split <;> rfl

theorem SceneManager.SetTextureUVScale_loaded (s : SceneManager) (u v : float) :
    (s.SetTextureUVScale u v).m_loadedTextures = s.m_loadedTextures := by
  unfold SceneManager.SetTextureUVScale
  split <;> rfl

theorem SceneManager.SetShaderMaterial_loaded (s : SceneManager) (tag : String)
    (mat0 : OBJECT_MATERIAL) :
    (s.SetShaderMaterial tag mat0).m_loadedTextures = s.m_loadedTextures := by
  unfold SceneManager.SetShaderMaterial
  simp only
  split
  · split <;> rfl
  · rfl

/-- Every table call other than `DestroyGLTextures` leaves `m_loadedTextures` at
least where it was. -/
theorem Call.run_loaded_mono (ext : Externals) (w w2 : World) (c : Call)
    (hc : c ≠ Call.DestroyGLTextures) (hrun : c.run ext w = some w2) :
    w.scene.m_loadedTextures ≤ w2.scene.m_loadedTextures := by
  cases c with
  | CreateGLTexture filename tag =>
    simp only [Call.run] at hrun
    cases hcr : SceneManager.CreateGLTexture ext w filename tag with
    | none => simp [hcr] at hrun
    | some r =>
      obtain ⟨b, w3⟩ := r
      simp only [hcr, Option.some.injEq] at hrun
      subst hrun
      exact (SceneManager.CreateGLTexture_loadedTags ext w filename tag b w3 hcr).2
  | PrepareScene => exact (SceneManager.PrepareScene_loadedTags ext w w2 hrun).2
  | BindGLTextures =>
    rw [SceneManager.BindGLTextures_scene w w2 hrun]
  | DestroyGLTextures => exact absurd rfl hc

/-- C10. Slot and unit agree after `BindGLTextures` (table within capacity): the
call returns and leaves the object alone; every unit `i` below `m_loadedTextures`
is bound to the `ID` of entry `i`; no unit at or above `m_loadedTextures` is
touched; hence for every tag carried by a loaded entry, `FindTextureSlot` yields
a unit whose binding, converted to `int`, is what `FindTextureID` yields for
that tag, and that unit is the sampler index `SetShaderTexture` pushes as
`objectTexture` when there is a shader manager. -/
theorem BindGLTextures_slot_unit_consistent (w : World) (h : w.scene.m_loadedTextures ≤ 16) :
    ∃ w2, SceneManager.BindGLTextures w = some w2 ∧ w2.scene = w.scene ∧
      (∀ (i : Nat) (e : TEXTURE_INFO), (i : Int) < w.scene.m_loadedTextures →
        w.scene.m_textureIDs.val[i]? = some e → w2.gl.boundTexture2D i = e.ID) ∧
      (∀ u : Nat, w.scene.m_loadedTextures ≤ (u : Int) →
        w2.gl.boundTexture2D u = w.gl.boundTexture2D u) ∧
      (∀ tag : String,
        (∃ (i : Nat) (e : TEXTURE_INFO), (i : Int) < w.scene.m_loadedTextures ∧
          w.scene.m_textureIDs.val[i]? = some e ∧ e.tag = tag) →
        ∃ slot : Nat, (slot : Int) < w2.scene.m_loadedTextures ∧
          w2.scene.FindTextureSlot tag = some (slot : Int) ∧
          w2.scene.FindTextureID tag = some (GLuint_to_int (w2.gl.boundTexture2D slot)) ∧
          ∀ sh, w2.scene.m_pShaderManager = some sh →
            ∃ s3, w2.scene.SetShaderTexture tag = some s3 ∧
              s3.m_pShaderManager =
                some ⟨sh.uniforms ++
                  [("bUseTexture", UniformValue.int 1),
                    ("objectTexture", UniformValue.sampler2D (slot : Int))]⟩) := by
  obtain ⟨w2, hw2, hscene, _, _, hin, hout⟩ := SceneManager.BindGLTextures_spec w h
  refine ⟨w2, hw2, hscene, hin, hout, ?_⟩
  intro tag hpresent
  obtain ⟨k, e, hk, hke, _, _, hslot, hid⟩ := SceneManager.slot_and_handle w.scene tag h hpresent
  refine ⟨k, by rw [hscene]; exact hk, by rw [hscene]; exact hslot, ?_, ?_⟩
  · rw [hscene, hin k e hk hke]
    exact hid
  · intro sh hsh
    rw [hscene] at hsh
    rw [hscene]
    have hmem : tag ∈ w.scene.loadedTags := (SceneManager.mem_loadedTags_iff w.scene tag).mpr
      hpresent
    have hidx : ((w.scene.loadedTags.indexOf tag : Nat) : Int) = (k : Int) := by
      have := SceneManager.FindTextureSlot_eq w.scene tag h
      rw [hslot, if_pos hmem] at this
      exact (Option.some.inj this).symm
    refine ⟨_, SceneManager.SetShaderTexture_eq w.scene tag h, ?_⟩
    simp [hsh, hmem, hidx]

/-! ## The statements at concrete inputs -/

/-- C1 at a concrete table: two loaded entries and stale ones behind them. -/
theorem FindTextureSlot_first_loaded_match_witness :
    staleScene.m_loadedTextures ≤ 16 ∧
    ∃ r : Int, staleScene.FindTextureSlot "glass" = some r ∧
      (r = -1 ↔ ∀ i : Nat, (i : Int) < staleScene.m_loadedTextures →
        ∀ e, staleScene.m_textureIDs.val[i]? = some e → e.tag ≠ "glass") ∧
      (r ≠ -1 → ∃ i : Nat, r = (i : Int) ∧ (i : Int) < staleScene.m_loadedTextures ∧
        (∃ e, staleScene.m_textureIDs.val[i]? = some e ∧ e.tag = "glass") ∧
        ∀ j : Nat, j < i → ∀ e, staleScene.m_textureIDs.val[j]? = some e → e.tag ≠ "glass") :=
  ⟨by decide, FindTextureSlot_first_loaded_match staleScene "glass" (by decide)⟩

/-- C2 at a concrete table: the loaded tag `brick` has the handle `0xFFFFFFFF`,
which converts to -1; the loaded tag `wood` has the handle 7. -/
theorem FindTextureID_first_loaded_handle_witness :
    staleScene.m_loadedTextures ≤ 16 ∧
    staleScene.FindTextureID "brick" = some (-1) ∧
    staleScene.FindTextureID "wood" = some 7 ∧
    (∃ r : Int, staleScene.FindTextureID "brick" = some r ∧
      ((∀ i : Nat, (i : Int) < staleScene.m_loadedTextures →
          ∀ e, staleScene.m_textureIDs.val[i]? = some e → e.tag ≠ "brick") → r = -1) ∧
      (∀ (i : Nat) (e : TEXTURE_INFO), (i : Int) < staleScene.m_loadedTextures →
          staleScene.m_textureIDs.val[i]? = some e → e.tag = "brick" →
          (∀ j : Nat, j < i → ∀ e2, staleScene.m_textureIDs.val[j]? = some e2 →
            e2.tag ≠ "brick") →
          (e.ID < 2 ^ 31 → r = (e.ID : Int)) ∧
          (2 ^ 31 ≤ e.ID → e.ID < 2 ^ 32 → r = (e.ID : Int) - 2 ^ 32) ∧
          -(2 : Int) ^ 31 ≤ r ∧ r < (2 : Int) ^ 31 ∧ (2 : Int) ^ 32 ∣ (r - (e.ID : Int)))) :=
  ⟨by decide, by decide, by decide,
    (FindTextureID_first_loaded_handle staleScene "brick" (by decide)).1⟩

/-- C9 at a concrete call: a loaded tag, a shader manager with no write so far. -/
theorem SetShaderTexture_uniform_writes_witness :
    staleScene.m_loadedTextures ≤ 16 ∧
    ∃ s2, staleScene.SetShaderTexture "brick" = some s2 ∧
      s2.m_textureIDs = staleScene.m_textureIDs ∧
      s2.m_loadedTextures = staleScene.m_loadedTextures ∧
      ("brick" ∉ staleScene.loadedTags →
        s2 = staleScene ∧ s2.m_pShaderManager = staleScene.m_pShaderManager) ∧
      ("brick" ∈ staleScene.loadedTags → ∀ sh, staleScene.m_pShaderManager = some sh →
        ∃ slot : Int, staleScene.FindTextureSlot "brick" = some slot ∧ 0 ≤ slot ∧
          s2.m_pShaderManager =
            some ⟨sh.uniforms ++
              [("bUseTexture", UniformValue.int 1),
                ("objectTexture", UniformValue.sampler2D slot)]⟩) ∧
      (staleScene.m_pShaderManager = none → s2 = staleScene) :=
  ⟨by decide, SetShaderTexture_uniform_writes staleScene "brick" (by decide)⟩

/-- C10 at a concrete world: the two loaded entries of the sample table. -/
theorem BindGLTextures_slot_unit_consistent_witness :
    (⟨staleScene, freshGL, false, []⟩ : World).scene.m_loadedTextures ≤ 16 ∧
    ∃ w2, SceneManager.BindGLTextures ⟨staleScene, freshGL, false, []⟩ = some w2 ∧
      w2.scene = staleScene ∧
      (∀ (i : Nat) (e : TEXTURE_INFO), (i : Int) < staleScene.m_loadedTextures →
        staleScene.m_textureIDs.val[i]? = some e → w2.gl.boundTexture2D i = e.ID) ∧
      (∀ u : Nat, staleScene.m_loadedTextures ≤ (u : Int) →
        w2.gl.boundTexture2D u = freshGL.boundTexture2D u) ∧
      (∀ tag : String,
        (∃ (i : Nat) (e : TEXTURE_INFO), (i : Int) < staleScene.m_loadedTextures ∧
          staleScene.m_textureIDs.val[i]? = some e ∧ e.tag = tag) →
        ∃ slot : Nat, (slot : Int) < w2.scene.m_loadedTextures ∧
          w2.scene.FindTextureSlot tag = some (slot : Int) ∧
          w2.scene.FindTextureID tag = some (GLuint_to_int (w2.gl.boundTexture2D slot)) ∧
          ∀ sh, w2.scene.m_pShaderManager = some sh →
            ∃ s3, w2.scene.SetShaderTexture tag = some s3 ∧
              s3.m_pShaderManager =
                some ⟨sh.uniforms ++
                  [("bUseTexture", UniformValue.int 1),
                    ("objectTexture", UniformValue.sampler2D (slot : Int))]⟩) :=
  ⟨by decide, BindGLTextures_slot_unit_consistent ⟨staleScene, freshGL, false, []⟩ (by decide)⟩

/-! ## `SetTransformations` and `RenderScene` -/

theorem SceneManager.sameTable_refl (s : SceneManager) : SceneManager.sameTable s s :=
  ⟨rfl, rfl, rfl, rfl⟩

theorem SceneManager.sameTable_trans (s s2 s3 : SceneManager)
    (h1 : SceneManager.sameTable s s2) (h2 : SceneManager.sameTable s2 s3) :
    SceneManager.sameTable s s3 :=
  ⟨h2.1.trans h1.1, h2.2.1.trans h1.2.1, h2.2.2.1.trans h1.2.2.1, h2.2.2.2.trans h1.2.2.2⟩

theorem SceneManager.SetTransformations_sameTable (glm : GLM) (s : SceneManager)
    (scaleXYZ : vec3) (x y z : float) (positionXYZ : vec3) :
    SceneManager.sameTable s (s.SetTransformations glm scaleXYZ x y z positionXYZ) := by
  unfold SceneManager.SetTransformations
  simp only
  cases hsh : s.m_pShaderManager with
  | none => exact ⟨rfl, rfl, rfl, rfl⟩
  | some sh => exact ⟨rfl, rfl, rfl, by simp [hsh]⟩

theorem SceneManager.SetShaderColor_sameTable (s : SceneManager) (r g b a : float) :
    SceneManager.sameTable s (s.SetShaderColor r g b a) := by
  unfold SceneManager.SetShaderColor
  cases hsh : s.m_pShaderManager with
  | none => exact ⟨rfl, rfl, rfl, rfl⟩
  | some sh => exact ⟨rfl, rfl, rfl, by simp [hsh]⟩

theorem SceneManager.SetShaderMaterial_sameTable (s : SceneManager) (tag : String)
    (mat0 : OBJECT_MATERIAL) : SceneManager.sameTable s (s.SetShaderMaterial tag mat0) := by
  unfold SceneManager.SetShaderMaterial
  simp only
  split
  · show SceneManager.sameTable s
      (match s.m_pShaderManager with
        | none => s
        | some sh =>
          { s with
            m_pShaderManager :=
              some (((sh.setVec3Value g_MaterialDiffuseName
                (s.FindMaterial tag mat0).material.diffuseColor).setVec3Value
                g_MaterialSpecularName
                (s.FindMaterial tag mat0).material.specularColor).setFloatValue
                g_MaterialShininessName (s.FindMaterial tag mat0).material.shininess) })
    cases hsh : s.m_pShaderManager with
    | none => exact ⟨rfl, rfl, rfl, rfl⟩
    | some sh => exact ⟨rfl, rfl, rfl, by simp [hsh]⟩
  · exact ⟨rfl, rfl, rfl, rfl⟩

theorem SceneManager.SetShaderTexture_sameTable (s s2 : SceneManager) (textureTag : String)
    (h : s.SetShaderTexture textureTag = some s2) : SceneManager.sameTable s s2 := by
  unfold SceneManager.SetShaderTexture at h
  cases hsh : s.m_pShaderManager with
  | none =>
    simp only [hsh, Option.some.injEq] at h
    subst h
    exact ⟨rfl, rfl, rfl, rfl⟩
  | some sh =>
    simp only [hsh] at h
    split at h
    · cases h
    · split at h <;>
      · simp only [Option.some.injEq] at h
        subst h
        exact ⟨rfl, rfl, rfl, by simp [hsh]⟩

/-- A statement of `RenderScene` that runs leaves table, count and materials
alone and keeps the shader manager present or absent. -/
theorem RenderCall.run_sameTable (ops : RenderOps) (c : RenderCall) (f f2 : Frame)
    (h : c.run ops f = some f2) : SceneManager.sameTable f.scene f2.scene := by
  cases c with
  | setIntValue name v =>
    simp only [RenderCall.run] at h
    cases hsh : f.scene.m_pShaderManager with
    | none => simp [hsh] at h
    | some sh =>
      simp only [hsh, Option.some.injEq] at h
      subst h
      exact ⟨rfl, rfl, rfl, by simp [hsh]⟩
  | setVec3Value name v =>
    simp only [RenderCall.run] at h
    cases hsh : f.scene.m_pShaderManager with
    | none => simp [hsh] at h
    | some sh =>
      simp only [hsh, Option.some.injEq] at h
      subst h
      exact ⟨rfl, rfl, rfl, by simp [hsh]⟩
  | setMat4Value name v =>
    simp only [RenderCall.run] at h
    cases hsh : f.scene.m_pShaderManager with
    | none => simp [hsh] at h
    | some sh =>
      simp only [hsh, Option.some.injEq] at h
      subst h
      exact ⟨rfl, rfl, rfl, by simp [hsh]⟩
  | SetShaderMaterial tag =>
    simp only [RenderCall.run, Option.some.injEq] at h
    subst h
    exact SceneManager.SetShaderMaterial_sameTable f.scene tag ops.mat0
  | SetTransformations scaleXYZ x y z positionXYZ =>
    simp only [RenderCall.run, Option.some.injEq] at h
    subst h
    exact SceneManager.SetTransformations_sameTable ops.glm f.scene scaleXYZ x y z positionXYZ
  | SetShaderTexture textureTag =>
    simp only [RenderCall.run] at h
    cases hs : f.scene.SetShaderTexture textureTag with
    | none => simp [hs] at h
    | some s2 =>
      simp only [hs, Option.some.injEq] at h
      subst h
      exact SceneManager.SetShaderTexture_sameTable f.scene s2 textureTag hs
  | SetShaderColor r g b a =>
    simp only [RenderCall.run, Option.some.injEq] at h
    subst h
    exact SceneManager.SetShaderColor_sameTable f.scene r g b a
  | Draw mesh =>
    simp only [RenderCall.run, Option.some.injEq] at h
    subst h
    exact ⟨rfl, rfl, rfl, rfl⟩

/-- With a shader manager and the table within capacity, every statement of
`RenderScene` runs. -/
theorem RenderCall.run_defined (ops : RenderOps) (c : RenderCall) (f : Frame)
    (h16 : f.scene.m_loadedTextures ≤ 16) (hsh : f.scene.m_pShaderManager.isSome = true) :
    ∃ f2, c.run ops f = some f2 := by
  obtain ⟨sh, hsh2⟩ := Option.isSome_iff_exists.mp hsh
  cases c with
  | setIntValue name v => simp [RenderCall.run, hsh2]
  | setVec3Value name v => simp [RenderCall.run, hsh2]
  | setMat4Value name v => simp [RenderCall.run, hsh2]
  | SetShaderMaterial tag => simp [RenderCall.run]
  | SetTransformations scaleXYZ x y z positionXYZ => simp [RenderCall.run]
  | SetShaderTexture textureTag =>
    simp [RenderCall.run, SceneManager.SetShaderTexture_eq f.scene textureTag h16]
  | SetShaderColor r g b a => simp [RenderCall.run]
  | Draw mesh => simp [RenderCall.run]

theorem RenderCall.runAll_sameTable (ops : RenderOps) :
    ∀ (l : List RenderCall) (f f2 : Frame), RenderCall.runAll ops l f = some f2 →
      SceneManager.sameTable f.scene f2.scene := by
  intro l
  induction l with
  | nil =>
    intro f f2 h
    simp only [RenderCall.runAll, Option.some.injEq] at h
    subst h
    exact SceneManager.sameTable_refl _
  | cons c l ih =>
    intro f f2 h
    simp only [RenderCall.runAll] at h
    cases hc : c.run ops f with
    | none => simp [hc] at h
    | some f1 =>
      simp only [hc] at h
      exact SceneManager.sameTable_trans _ _ _ (RenderCall.run_sameTable ops c f f1 hc)
        (ih f1 f2 h)

theorem RenderCall.runAll_defined (ops : RenderOps) :
    ∀ (l : List RenderCall) (f : Frame), f.scene.m_loadedTextures ≤ 16 →
      f.scene.m_pShaderManager.isSome = true → ∃ f2, RenderCall.runAll ops l f = some f2 := by
  intro l
  induction l with
  | nil => intro f _ _; exact ⟨f, rfl⟩
  | cons c l ih =>
    intro f h16 hsh
    obtain ⟨f1, hf1⟩ := RenderCall.run_defined ops c f h16 hsh
    obtain ⟨hn, _, _, hs⟩ := RenderCall.run_sameTable ops c f f1 hf1
    obtain ⟨f2, hf2⟩ := ih f1 (by rw [hn]; exact h16) (by rw [hs]; exact hsh)
    exact ⟨f2, by simp [RenderCall.runAll, hf1, hf2]⟩

/-- Whatever `RenderScene` returns, the texture table, the count of loaded
textures and the material list are what they were. -/
theorem SceneManager.RenderScene_sameTable (ops : RenderOps) (s : SceneManager) (r : Frame)
    (h : s.RenderScene ops = some r) : SceneManager.sameTable s r.scene := by
  unfold SceneManager.RenderScene at h
  split at h
  · simp only [Option.some.injEq] at h
    subst h
    exact SceneManager.sameTable_refl _
  · exact RenderCall.runAll_sameTable ops _ _ r h

/-- With the table within capacity `RenderScene` returns. -/
theorem SceneManager.RenderScene_defined (ops : RenderOps) (s : SceneManager)
    (h16 : s.m_loadedTextures ≤ 16) : ∃ r, s.RenderScene ops = some r := by
  unfold SceneManager.RenderScene
  cases hsh : s.m_pShaderManager with
  | none => exact ⟨_, rfl⟩
  | some sh =>
    exact RenderCall.runAll_defined ops _ ⟨s, []⟩ h16 (by simp [hsh])

/-- C7. Append-only.  From a state with fewer than 16 loaded textures
(`0 ≤ m_loadedTextures < 16`) a `CreateGLTexture` call, whether its decode
succeeds or fails, returns and leaves `FindTextureSlot` and `FindTextureID` of
every tag that was loaded before the call at the value they had.  In any state,
when `PrepareScene` returns (it does from a state with at most 10 loaded
textures) the material list is the old one with the default material pushed
behind it, and `FindMaterial` gives the old flag and the old material for every
tag the list already had.  In any state, no call other than `DestroyGLTextures`
lowers `m_loadedTextures`: `CreateGLTexture`, `PrepareScene` and
`BindGLTextures` leave it at least where it was, and `SetShaderTexture`,
`SetTransformations`, `SetShaderColor`, `SetTextureUVScale`,
`SetShaderMaterial`, `FindMaterial` and `RenderScene` leave it, and
`RenderScene` also the table and the material list, exactly where it was;
`RenderScene` returns whenever the table is within capacity. -/
theorem table_and_materials_append_only (ext : Externals) (w : World)
    (filename newTag : String) :
    (0 ≤ w.scene.m_loadedTextures → w.scene.m_loadedTextures < 16 →
      ∃ b w2, SceneManager.CreateGLTexture ext w filename newTag = some (b, w2) ∧
        ∀ tag ∈ w.scene.loadedTags,
          w2.scene.FindTextureSlot tag = w.scene.FindTextureSlot tag ∧
          w2.scene.FindTextureID tag = w.scene.FindTextureID tag) ∧
    (∀ w2, SceneManager.PrepareScene ext w = some w2 →
      w2.scene.m_objectMaterials =
        w.scene.m_objectMaterials ++ [SceneManager.PrepareScene.defaultMat] ∧
      ∀ (tag : String) (material : OBJECT_MATERIAL),
        (∃ m ∈ w.scene.m_objectMaterials, m.tag = tag) →
        (w2.scene.FindMaterial tag material).ret = (w.scene.FindMaterial tag material).ret ∧
        (w2.scene.FindMaterial tag material).material =
          (w.scene.FindMaterial tag material).material) ∧
    (0 ≤ w.scene.m_loadedTextures → w.scene.m_loadedTextures ≤ 10 →
      ∃ w2, SceneManager.PrepareScene ext w = some w2) ∧
    (∀ (c : Call) (w2 : World), c ≠ Call.DestroyGLTextures → c.run ext w = some w2 →
      w.scene.m_loadedTextures ≤ w2.scene.m_loadedTextures) ∧
    (∀ (tag : String) (s2 : SceneManager), w.scene.SetShaderTexture tag = some s2 →
      s2.m_loadedTextures = w.scene.m_loadedTextures) ∧
    (∀ (glm : GLM) (scaleXYZ : vec3) (x y z : float) (positionXYZ : vec3),
      (w.scene.SetTransformations glm scaleXYZ x y z positionXYZ).m_loadedTextures =
        w.scene.m_loadedTextures) ∧
    (∀ r g b a : float,
      (w.scene.SetShaderColor r g b a).m_loadedTextures = w.scene.m_loadedTextures) ∧
    (∀ u v : float,
      (w.scene.SetTextureUVScale u v).m_loadedTextures = w.scene.m_loadedTextures) ∧
    (∀ (tag : String) (mat0 : OBJECT_MATERIAL),
      (w.scene.SetShaderMaterial tag mat0).m_loadedTextures = w.scene.m_loadedTextures) ∧
    (∀ (tag : String) (material : OBJECT_MATERIAL),
      (w.scene.FindMaterial tag material).self.m_loadedTextures = w.scene.m_loadedTextures) ∧
    (∀ (ops : RenderOps) (r : Frame), w.scene.RenderScene ops = some r →
      r.scene.m_loadedTextures = w.scene.m_loadedTextures ∧
      r.scene.m_textureIDs = w.scene.m_textureIDs ∧
      r.scene.m_objectMaterials = w.scene.m_objectMaterials) ∧
    (w.scene.m_loadedTextures ≤ 16 →
      ∀ ops : RenderOps, ∃ r, w.scene.RenderScene ops = some r) := by
  refine ⟨?_, ?_, ?_, ?_, ?_, ?_, ?_, ?_, ?_, ?_, ?_, ?_⟩
  · intro h0 h16
    cases hd : ext.stbi_load filename true with
    | none =>
      refine ⟨false, _, SceneManager.CreateGLTexture_fail ext w filename newTag hd, ?_⟩
      intro tag _
      exact ⟨rfl, rfl⟩
    | some data =>
      obtain ⟨w2, hw2, hn, hl, _⟩ :=
        SceneManager.CreateGLTexture_ok_loaded ext w filename newTag data hd h0 h16
      refine ⟨true, w2, hw2, ?_⟩
      intro tag hmem
      exact SceneManager.lookups_after_append w.scene w2.scene _ (by omega) (by omega) hl tag hmem
  · intro w2 hw2
    obtain ⟨hmat, _⟩ := SceneManager.PrepareScene_materials ext w w2 hw2
    refine ⟨hmat, ?_⟩
    intro tag material hpresent
    have hloop := SceneManager.FindMaterial_loop_append tag material
      [SceneManager.PrepareScene.defaultMat] w.scene.m_objectMaterials hpresent
    simp [SceneManager.FindMaterial, hmat, hloop]
  · intro h0 h10
    obtain ⟨w2, hw2, _⟩ := SceneManager.PrepareScene_spec ext w h0 h10
    exact ⟨w2, hw2⟩
  · intro c w2 hc hrun
    exact Call.run_loaded_mono ext w w2 c hc hrun
  · intro tag s2 hs2
    exact (SceneManager.SetShaderTexture_loaded w.scene s2 tag hs2).1
  · intro glm scaleXYZ x y z positionXYZ
    exact SceneManager.SetTransformations_loaded glm w.scene scaleXYZ x y z positionXYZ
  · intro r g b a
    exact SceneManager.SetShaderColor_loaded w.scene r g b a
  · intro u v
    exact SceneManager.SetTextureUVScale_loaded w.scene u v
  · intro tag mat0
    exact SceneManager.SetShaderMaterial_loaded w.scene tag mat0
  · intro tag material
    rfl
  · intro ops r hr
    obtain ⟨h1, h2, h3, _⟩ := SceneManager.RenderScene_sameTable ops w.scene r hr
    exact ⟨h1, h2, h3⟩
  · intro h16 ops
    exact SceneManager.RenderScene_defined ops w.scene h16

/-- C7 at a concrete call: two textures loaded, a third file decodes. -/
theorem table_and_materials_append_only_witness :
    (0 ≤ staleScene.m_loadedTextures ∧ staleScene.m_loadedTextures < 16) ∧
    (∃ b w2, SceneManager.CreateGLTexture sampleExt ⟨staleScene, freshGL, false, []⟩
        "textures/mug_texture.jpg" "mugTexture" = some (b, w2) ∧
      ∀ tag ∈ staleScene.loadedTags,
        w2.scene.FindTextureSlot tag = staleScene.FindTextureSlot tag ∧
        w2.scene.FindTextureID tag = staleScene.FindTextureID tag) ∧
    (∀ w2, SceneManager.PrepareScene sampleExt ⟨staleScene, freshGL, false, []⟩ = some w2 →
      w2.scene.m_objectMaterials =
        staleScene.m_objectMaterials ++ [SceneManager.PrepareScene.defaultMat] ∧
      ∀ (tag : String) (material : OBJECT_MATERIAL),
        (∃ m ∈ staleScene.m_objectMaterials, m.tag = tag) →
        (w2.scene.FindMaterial tag material).ret = (staleScene.FindMaterial tag material).ret ∧
        (w2.scene.FindMaterial tag material).material =
          (staleScene.FindMaterial tag material).material) ∧
    (∀ ops : RenderOps, ∃ r, staleScene.RenderScene ops = some r) :=
  have hall := table_and_materials_append_only sampleExt ⟨staleScene, freshGL, false, []⟩
    "textures/mug_texture.jpg" "mugTexture"
  ⟨⟨by decide, by decide⟩, hall.1 (by decide) (by decide), hall.2.1,
    hall.2.2.2.2.2.2.2.2.2.2.2 (by decide)⟩

